import Mathlib

/-!
# MySQL user resource controller

A shallow embedding of `mysql/resource_user.go` (the lifecycle callbacks
`CreateUser`, `UpdateUser`, `ReadUser`, `DeleteUser`, the importer `ImportUser`
and the attribute schema of the `mysql_user` resource) together with the properties of the controller that the design
document states.

Conventions of the embedding:

* a Go `error` is identified with its message, `nil` is `none`;
* every callback is a pure function from the resource data and the provider
  configuration to an `Outcome`: the returned error, the resource data after
  the call, and the database calls that were made, in order;
* `fmt.Sprintf` with `%s` verbs is string concatenation;
* `log.Println` writes to the logging sink only and is not part of the model.
-/

namespace Mysql

/-! ## External collaborators -/

/-- Go error values, identified by their message. -/
abbrev Error := String

/-- The attribute names declared in the `Schema` map of `resourceUser`. -/
inductive Key where
  | user
  | host
  | plaintext_password
  | password
  | auth_plugin
  deriving DecidableEq, Repr

/-- The view of `schema.ResourceData` that the callbacks use. All five
attributes are of `TypeString`, so a missing value reads as the zero value `""`.

* `id` is the external identifier (`d.Id()`, `d.SetId`);
* `state k` is the value of `k` in the prior state;
* `diff k` is the value of `k` once the planned change is merged over the state;
* `written k` is the value stored by `d.Set`, if any. -/
structure ResourceData where
  id : String
  state : Key → String
  diff : Key → String
  written : Key → Option String

namespace ResourceData

/-- `d.Id()`. -/
def Id (d : ResourceData) : String := d.id

/-- `d.SetId(v)`. -/
def SetId (d : ResourceData) (v : String) : ResourceData :=
  ⟨v, d.state, d.diff, d.written⟩

/-- `d.Get(k)`: the most recent value, a value stored by `Set` first. -/
def Get (d : ResourceData) (k : Key) : String :=
  match d.written k with
  | some v => v
  | none => d.diff k

/-- `d.GetOk(k)`: the value together with whether it is set to a non-zero value. -/
def GetOk (d : ResourceData) (k : Key) : String × Bool :=
  (d.Get k, decide (d.Get k ≠ ""))

/-- `d.GetChange(k)`: the old and the new value of `k`. -/
def GetChange (d : ResourceData) (k : Key) : String × String :=
  (d.state k, d.diff k)

/-- `d.HasChange(k)`: whether old and new value differ. -/
def HasChange (d : ResourceData) (k : Key) : Bool :=
  decide ((d.GetChange k).1 ≠ (d.GetChange k).2)

/-- `d.Set(k, v)`. -/
def Set (d : ResourceData) (k : Key) (v : String) : ResourceData :=
  ⟨d.id, d.state, d.diff, fun j => if j = k then some v else d.written j⟩

end ResourceData

/-- The row iterator returned by a successful `Query`, as far as `ReadUser`
observes it: the result of the first `rows.Next()` and of `rows.Err()` after it.
`Next` reports `true` exactly when a row was prepared without error. -/
inductive Rows where
  | row
  | done
  | failed (e : Error)
  deriving DecidableEq, Repr

namespace Rows

/-- `rows.Next()`. -/
def Next : Rows → Bool
  | row => true
  | done => false
  | failed _ => false

/-- `rows.Err()`. -/
def Err : Rows → Option Error
  | row => none
  | done => none
  | failed e => some e

end Rows

/-- The database handle `*sql.DB`: how the server answers each statement. -/
structure DB where
  Exec : String → Option Error
  Query : String → Except Error Rows

/-- A database round trip made by a callback. -/
inductive Call where
  | exec (sql : String)
  | query (sql : String)
  deriving DecidableEq, Repr

/-- Modelled from the spec: the parsed server version (`*version.Version` of
hashicorp/go-version) handed to the controller: the numeric segments (at least
three after parsing, `5.7` reads as `5.7.0`), the pre-release part after `-`
(`"log"` for `5.7.6-log`, `""` when there is none) and the build metadata
after `+`. -/
structure Version where
  segments : List Nat
  pre : String
  metadata : String
  deriving DecidableEq, Repr

/-- `allZero` of go-version: every segment is zero. -/
def allZero : List Nat → Bool
  | [] => true
  | n :: ns => n == 0 && allZero ns

/-- The segment loop of go-version's `Compare`: the first differing position
decides; when one list is longer, its remaining segments decide. -/
def compareSegments : List Nat → List Nat → Int
  | [], [] => 0
  | [], n :: ns => if allZero (n :: ns) then 0 else -1
  | n :: ns, [] => if allZero (n :: ns) then 0 else 1
  | a :: as, b :: bs =>
    if a = b then compareSegments as bs
    else if a < b then -1
    else 1

/-- The value of a non-empty list of decimal digits, `none` for anything else. -/
def digitsValue : List Char → Option Nat
  | [] => none
  | c :: cs =>
    if (c :: cs).all Char.isDigit then
      some ((c :: cs).foldl (fun n ch => 10 * n + (ch.toNat - 48)) 0)
    else none

/-- `strconv.ParseInt(s, 10, 64)`: the value and whether parsing succeeded; a
syntax error gives `0`, a value out of range gives the nearest bound. -/
def ParseInt (s : String) : Int × Bool :=
  match s.data with
  | '-' :: ds =>
    match digitsValue ds with
    | some n => if n ≤ 2 ^ 63 then (-(n : Int), true) else (-(2 ^ 63 : Int), false)
    | none => (0, false)
  | '+' :: ds =>
    match digitsValue ds with
    | some n => if n < 2 ^ 63 then ((n : Int), true) else ((2 ^ 63 : Int) - 1, false)
    | none => (0, false)
  | ds =>
    match digitsValue ds with
    | some n => if n < 2 ^ 63 then ((n : Int), true) else ((2 ^ 63 : Int) - 1, false)
    | none => (0, false)

/-- The loop of `strings.Split(s, sep)` for a separator of one ASCII
character; `acc` holds the current piece in reverse. -/
def splitLoop (sep : Char) : List Char → List Char → List String
  | [], acc => [String.mk acc.reverse]
  | c :: cs, acc =>
    if c = sep then String.mk acc.reverse :: splitLoop sep cs []
    else splitLoop sep cs (c :: acc)

/-- `strings.Split(s, sep)` for a separator of one ASCII character. -/
def Split (s : String) (sep : Char) : List String :=
  splitLoop sep s.data []

/-- `comparePart` of go-version: two dot-separated parts of pre-release
strings. -/
def comparePart (preSelf preOther : String) : Int :=
  if preSelf = preOther then 0
  else
    let selfInt := (ParseInt preSelf).1
    let selfNumeric := (ParseInt preSelf).2
    let otherInt := (ParseInt preOther).1
    let otherNumeric := (ParseInt preOther).2
    if preSelf = "" then (if otherNumeric then -1 else 1)
    else if preOther = "" then (if selfNumeric then 1 else -1)
    else if selfNumeric && !otherNumeric then -1
    else if !selfNumeric && otherNumeric then 1
    else if !selfNumeric && !otherNumeric && decide (preOther < preSelf) then 1
    else if selfInt > otherInt then 1
    else -1

/-- The loop of `comparePrereleases`: the first pair of parts that differs
decides; a missing part reads as `""`. -/
def comparePartsLoop : List String → List String → Int
  | [], [] => 0
  | [], b :: bs =>
    if comparePart "" b ≠ 0 then comparePart "" b else comparePartsLoop [] bs
  | a :: as, [] =>
    if comparePart a "" ≠ 0 then comparePart a "" else comparePartsLoop as []
  | a :: as, b :: bs =>
    if comparePart a b ≠ 0 then comparePart a b else comparePartsLoop as bs

/-- `comparePrereleases` of go-version. -/
def comparePrereleases (v other : String) : Int :=
  if v = other then 0
  else comparePartsLoop (Split v '.') (Split other '.')

namespace Version

/-- `v.Compare(other)` of go-version, `-1`, `0` or `1`. With equal segment
lists the pre-release parts decide, and a version with a pre-release part is
below the one without; otherwise the segments decide. The build metadata takes
no part. (The initial shortcut on equal `String()` results returns `0`, as the
rest does for two versions that print alike.) -/
def Compare (v other : Version) : Int :=
  if v.segments = other.segments then
    if v.pre = "" ∧ other.pre = "" then 0
    else if v.pre = "" then 1
    else if other.pre = "" then -1
    else comparePrereleases v.pre other.pre
  else compareSegments v.segments other.segments

/-- `v.LessThan(other)`. -/
def LessThan (v other : Version) : Bool :=
  decide (v.Compare other < 0)

end Version

/-- Modelled from the spec: the provider configuration passed as `meta`
(declared in the provider set-up, outside this file): the open database
handle and the parsed server version. -/
structure providerConfiguration where
  DB : DB
  ServerVersion : Version

/-- What a callback did: the error it returned, the resource data after the
call, and the database calls it made. -/
structure Outcome where
  err : Option Error
  d : ResourceData
  calls : List Call

/-! ## The callbacks -/

/-- `CreateUser` (resource_user.go, lines 63-112). -/
def CreateUser (d : ResourceData) (meta : providerConfiguration) : Outcome :=
  let db := meta.DB
  let auth : String :=
    if (d.GetOk Key.auth_plugin).2 then (d.GetOk Key.auth_plugin).1 else ""
  let authStm : String :=
    if auth.length > 0 then
      if auth = "AWSAuthenticationPlugin" then
        " IDENTIFIED WITH AWSAuthenticationPlugin as 'RDS'"
      else if auth = "mysql_no_login" then
        " IDENTIFIED WITH mysql_no_login"
      else ""
    else ""
  let stmtSQL : String :=
    "CREATE USER '" ++ d.Get Key.user ++ "'@'" ++ d.Get Key.host ++ "'"
  let password : String :=
    if (d.GetOk Key.plaintext_password).2 then (d.GetOk Key.plaintext_password).1
    else d.Get Key.password
  if auth = "AWSAuthenticationPlugin" ∧ d.Get Key.host = "localhost" then
    ⟨some "cannot use IAM auth against localhost", d, []⟩
  else
    let stmtSQL : String :=
      if authStm ≠ "" then stmtSQL ++ authStm
      else stmtSQL ++ (" IDENTIFIED BY '" ++ password ++ "'")
    match db.Exec stmtSQL with
    | some err => ⟨some err, d, [Call.exec stmtSQL]⟩
    | none =>
      let user : String := d.Get Key.user ++ "@" ++ d.Get Key.host
      ⟨none, d.SetId user, [Call.exec stmtSQL]⟩

/-- `UpdateUser` (resource_user.go, lines 114-161). The threshold `ver` is the
result of `version.NewVersion("5.7.6")`: segments 5, 7, 6, no pre-release part,
no metadata. -/
def UpdateUser (d : ResourceData) (meta : providerConfiguration) : Outcome :=
  let conf := meta
  let auth : String :=
    if (d.GetOk Key.auth_plugin).2 then (d.GetOk Key.auth_plugin).1 else ""
  if auth.length > 0 then
    ⟨none, d, []⟩
  else
    let newpw : Option String :=
      if d.HasChange Key.plaintext_password then
        some (d.GetChange Key.plaintext_password).2
      else if d.HasChange Key.password then
        some (d.GetChange Key.password).2
      else none
    match newpw with
    | some pw =>
      let ver : Version := ⟨[5, 7, 6], "", ""⟩
      let stmtSQL : String :=
        if conf.ServerVersion.LessThan ver then
          "SET PASSWORD FOR '" ++ d.Get Key.user ++ "'@'" ++ d.Get Key.host
            ++ "' = PASSWORD('" ++ pw ++ "')"
        else
          "ALTER USER '" ++ d.Get Key.user ++ "'@'" ++ d.Get Key.host
            ++ "' IDENTIFIED BY '" ++ pw ++ "'"
      match conf.DB.Exec stmtSQL with
      | some err => ⟨some err, d, [Call.exec stmtSQL]⟩
      | none => ⟨none, d, [Call.exec stmtSQL]⟩
    | none => ⟨none, d, []⟩

/-- `ReadUser` (resource_user.go, lines 163-181). -/
def ReadUser (d : ResourceData) (meta : providerConfiguration) : Outcome :=
  let db := meta.DB
  let stmtSQL : String :=
    "SELECT USER FROM mysql.user WHERE USER='" ++ d.Get Key.user ++ "'"
  match db.Query stmtSQL with
  | Except.error err => ⟨some err, d, [Call.query stmtSQL]⟩
  | Except.ok rows =>
    let d1 : ResourceData :=
      if !rows.Next && rows.Err = none then d.SetId "" else d
    ⟨rows.Err, d1, [Call.query stmtSQL]⟩

/-- `DeleteUser` (resource_user.go, lines 183-197). -/
def DeleteUser (d : ResourceData) (meta : providerConfiguration) : Outcome :=
  let db := meta.DB
  let stmtSQL : String :=
    "DROP USER '" ++ d.Get Key.user ++ "'@'" ++ d.Get Key.host ++ "'"
  match db.Exec stmtSQL with
  | none => ⟨none, d.SetId "", [Call.exec stmtSQL]⟩
  | some err => ⟨some err, d, [Call.exec stmtSQL]⟩

/-- The part of `strings.Index` and slicing that `strings.SplitN` uses: the
text before the first occurrence of `sep` and the text after it, if `sep`
occurs. -/
def cutAt (sep : Char) : List Char → Option (List Char × List Char)
  | [] => none
  | c :: cs =>
    if c = sep then some ([], cs)
    else
      match cutAt sep cs with
      | some (a, b) => some (c :: a, b)
      | none => none

/-- `strings.SplitN(s, sep, n)` for a separator of one ASCII character and
`n ≥ 0`: at most `n` pieces, the last one the unsplit remainder; `nil` for
`n = 0`. -/
def SplitN (s : String) (sep : Char) : Nat → List String
  | 0 => []
  | 1 => [s]
  | n + 2 =>
    match cutAt sep s.data with
    | none => [s]
    | some (a, b) => String.mk a :: SplitN (String.mk b) sep (n + 1)

/-- What `ImportUser` did: the returned slice (`nil` is `[]`), the returned
error, the resource data after the call, and the database calls it made. -/
structure ImportOutcome where
  result : List ResourceData
  err : Option Error
  d : ResourceData
  calls : List Call

/-- `ImportUser` (resource_user.go, lines 199-217). `len(parts) == 2` is the
two-element pattern. -/
def ImportUser (d : ResourceData) (_meta : providerConfiguration) : ImportOutcome :=
  let input_id := d.Id
  let parts := SplitN input_id '@' 2
  match parts with
  | [part0, part1] =>
    let d1 := d.Set Key.user part0
    let d2 := d1.Set Key.host part1
    let d3 :=
      if d2.HasChange Key.plaintext_password then
        d2.Set Key.plaintext_password (d2.GetChange Key.plaintext_password).2
      else d2
    ⟨[d3], none, d3, []⟩
  | _ =>
    ⟨[], some ("Error parsing id, unable to import: " ++ input_id
        ++ ". Must be in format USER@HOST."), d, []⟩

/-- The fields of `schema.Schema` that `resourceUser` sets. Every attribute
is of `TypeString`. -/
structure Schema where
  Required : Bool
  Optional : Bool
  ForceNew : Bool
  Default : Option String
  Sensitive : Bool
  StateFunc : Option (String → String)
  ConflictsWith : List Key
  Deprecated : String

/-- The `Schema` map of `resourceUser` (resource_user.go, lines 24-59). The
digest function `hashSum` is declared outside this file and is a parameter. -/
def resourceUser (hashSum : String → String) : Key → Schema
  | Key.user => ⟨true, false, true, none, false, none, [], ""⟩
  | Key.host => ⟨false, true, true, some "localhost", false, none, [], ""⟩
  | Key.plaintext_password => ⟨false, true, false, none, true, some hashSum, [], ""⟩
  | Key.password =>
    ⟨false, true, false, none, true, none, [Key.plaintext_password],
      "Please use plaintext_password instead"⟩
  | Key.auth_plugin =>
    ⟨false, true, true, none, false, none, [Key.plaintext_password, Key.password], ""⟩

/-- The statement text `CreateUser` has built when it reaches `db.Exec`
(resource_user.go, lines 66-100). -/
def createStatement (d : ResourceData) : String :=
  let auth : String :=
    if (d.GetOk Key.auth_plugin).2 then (d.GetOk Key.auth_plugin).1 else ""
  let authStm : String :=
    if auth.length > 0 then
      if auth = "AWSAuthenticationPlugin" then
        " IDENTIFIED WITH AWSAuthenticationPlugin as 'RDS'"
      else if auth = "mysql_no_login" then
        " IDENTIFIED WITH mysql_no_login"
      else ""
    else ""
  let stmtSQL : String :=
    "CREATE USER '" ++ d.Get Key.user ++ "'@'" ++ d.Get Key.host ++ "'"
  let password : String :=
    if (d.GetOk Key.plaintext_password).2 then (d.GetOk Key.plaintext_password).1
    else d.Get Key.password
  if authStm ≠ "" then stmtSQL ++ authStm
  else stmtSQL ++ (" IDENTIFIED BY '" ++ password ++ "'")

/-- The statement text `UpdateUser` builds for the new password `pw`
(resource_user.go, lines 137-151). -/
def passwordStatement (d : ResourceData) (conf : providerConfiguration) (pw : String) :
    String :=
  let ver : Version := ⟨[5, 7, 6], "", ""⟩
  if conf.ServerVersion.LessThan ver then
    "SET PASSWORD FOR '" ++ d.Get Key.user ++ "'@'" ++ d.Get Key.host
      ++ "' = PASSWORD('" ++ pw ++ "')"
  else
    "ALTER USER '" ++ d.Get Key.user ++ "'@'" ++ d.Get Key.host
      ++ "' IDENTIFIED BY '" ++ pw ++ "'"

/-! ## Sample inputs -/

/-- A resource data record with the given identifier and attribute values and
no prior state: every attribute is new. -/
def mkData (id user host plaintext password auth : String) : ResourceData :=
  ⟨id, fun _ => "",
    fun k => match k with
      | Key.user => user
      | Key.host => host
      | Key.plaintext_password => plaintext
      | Key.password => password
      | Key.auth_plugin => auth,
    fun _ => none⟩

/-- A resource data record of an existing user `user@host` without
authentication plugin whose `plaintext_password` goes from `oldPlain` to
`newPlain` and whose `password` goes from `oldPw` to `newPw`. -/
def mkUpdate (id user host oldPlain newPlain oldPw newPw : String) : ResourceData :=
  ⟨id,
    fun k => match k with
      | Key.user => user
      | Key.host => host
      | Key.plaintext_password => oldPlain
      | Key.password => oldPw
      | Key.auth_plugin => "",
    fun k => match k with
      | Key.user => user
      | Key.host => host
      | Key.plaintext_password => newPlain
      | Key.password => newPw
      | Key.auth_plugin => "",
    fun _ => none⟩

/-- A server that accepts every statement and has a row for every query. -/
def rowDB : DB := ⟨fun _ => none, fun _ => Except.ok Rows.row⟩

/-- A server that accepts every statement and has no rows. -/
def okDB : DB := ⟨fun _ => none, fun _ => Except.ok Rows.done⟩

/-- A server that rejects every statement and every query with the error `e`. -/
def failDB (e : Error) : DB := ⟨fun _ => some e, fun _ => Except.error e⟩

/-! ## Helper lemmas -/

theorem length_pos_iff_ne_empty (s : String) : s.length > 0 ↔ s ≠ "" := by
  constructor
  · intro h hs
    subst hs
    simp at h
  · intro h
    rcases s with ⟨l⟩
    cases l with
    | nil => exact absurd rfl h
    | cons a t => simp [String.length]

theorem auth_of_set (d : ResourceData) :
    (if (d.GetOk Key.auth_plugin).2 then (d.GetOk Key.auth_plugin).1 else "")
      = d.Get Key.auth_plugin := by
  by_cases h : d.Get Key.auth_plugin = "" <;> simp [ResourceData.GetOk, h]

theorem CreateUser_rejected (d : ResourceData) (meta : providerConfiguration)
    (hg : d.Get Key.auth_plugin = "AWSAuthenticationPlugin" ∧ d.Get Key.host = "localhost") :
    CreateUser d meta = ⟨some "cannot use IAM auth against localhost", d, []⟩ := by
  simp only [CreateUser, auth_of_set]
  rw [if_pos hg]

theorem CreateUser_failed (d : ResourceData) (meta : providerConfiguration)
    (hg : ¬ (d.Get Key.auth_plugin = "AWSAuthenticationPlugin"
      ∧ d.Get Key.host = "localhost"))
    (e : Error) (hex : meta.DB.Exec (createStatement d) = some e) :
    CreateUser d meta = ⟨some e, d, [Call.exec (createStatement d)]⟩ := by
  simp only [createStatement, auth_of_set] at hex
  simp only [CreateUser, createStatement, auth_of_set]
  rw [if_neg hg]
  simp only [hex]

theorem CreateUser_succeeded (d : ResourceData) (meta : providerConfiguration)
    (hg : ¬ (d.Get Key.auth_plugin = "AWSAuthenticationPlugin"
      ∧ d.Get Key.host = "localhost"))
    (hex : meta.DB.Exec (createStatement d) = none) :
    CreateUser d meta
      = ⟨none, d.SetId (d.Get Key.user ++ "@" ++ d.Get Key.host),
          [Call.exec (createStatement d)]⟩ := by
  simp only [createStatement, auth_of_set] at hex
  simp only [CreateUser, createStatement, auth_of_set]
  rw [if_neg hg]
  simp only [hex]

theorem CreateUser_calls (d : ResourceData) (meta : providerConfiguration)
    (hg : ¬ (d.Get Key.auth_plugin = "AWSAuthenticationPlugin"
      ∧ d.Get Key.host = "localhost")) :
    (CreateUser d meta).calls = [Call.exec (createStatement d)] := by
  cases hex : meta.DB.Exec (createStatement d) with
  | some e => rw [CreateUser_failed d meta hg e hex]
  | none => rw [CreateUser_succeeded d meta hg hex]

theorem createStatement_password (d : ResourceData) (hauth : d.Get Key.auth_plugin = "") :
    createStatement d
      = "CREATE USER '" ++ d.Get Key.user ++ "'@'" ++ d.Get Key.host
          ++ "' IDENTIFIED BY '"
          ++ (if d.Get Key.plaintext_password ≠ "" then d.Get Key.plaintext_password
              else d.Get Key.password)
          ++ "'" := by
  have hl : ¬ (0 : Nat) < ("" : String).length := by decide
  have hq : ∀ x : String, "'" ++ (" IDENTIFIED BY '" ++ x) = "' IDENTIFIED BY '" ++ x := by
    intro x
    rw [← String.append_assoc]
    rfl
  simp only [createStatement, auth_of_set, hauth, hl, gt_iff_lt, if_false, ne_eq,
    not_true_eq_false, ResourceData.GetOk, decide_eq_true_eq, String.append_assoc, hq]

/-! ## Create -/

/-- C1: with `auth_plugin = "AWSAuthenticationPlugin"` and `host = "localhost"`,
whatever the other attributes are, `CreateUser` returns the validation error,
makes no database call and leaves the resource data (hence the identifier)
unchanged. -/
theorem C1_create_iam_localhost_rejected (d : ResourceData)
    (meta : providerConfiguration)
    (hauth : d.Get Key.auth_plugin = "AWSAuthenticationPlugin")
    (hhost : d.Get Key.host = "localhost") :
    (CreateUser d meta).err = some "cannot use IAM auth against localhost"
      ∧ (CreateUser d meta).calls = []
      ∧ (CreateUser d meta).d = d
      ∧ (CreateUser d meta).d.Id = d.Id := by
  simp [CreateUser, auth_of_set, hauth, hhost]

theorem C1_create_iam_localhost_rejected_witness :
    (CreateUser (mkData "old" "bob" "localhost" "pw" "legacy" "AWSAuthenticationPlugin")
        ⟨okDB, ⟨[5, 7, 6], "", ""⟩⟩).err = some "cannot use IAM auth against localhost"
      ∧ (CreateUser (mkData "old" "bob" "localhost" "pw" "legacy" "AWSAuthenticationPlugin")
        ⟨okDB, ⟨[5, 7, 6], "", ""⟩⟩).calls = []
      ∧ (CreateUser (mkData "old" "bob" "localhost" "pw" "legacy" "AWSAuthenticationPlugin")
        ⟨okDB, ⟨[5, 7, 6], "", ""⟩⟩).d
          = mkData "old" "bob" "localhost" "pw" "legacy" "AWSAuthenticationPlugin"
      ∧ (CreateUser (mkData "old" "bob" "localhost" "pw" "legacy" "AWSAuthenticationPlugin")
        ⟨okDB, ⟨[5, 7, 6], "", ""⟩⟩).d.Id
          = (mkData "old" "bob" "localhost" "pw" "legacy" "AWSAuthenticationPlugin").Id :=
  C1_create_iam_localhost_rejected _ _ rfl rfl

/-- C2: with `auth_plugin` set to a value that is not one of the two recognised
plugins and both password attributes unset, `CreateUser` still appends an
`IDENTIFIED BY` clause (with the empty password) to the statement it executes,
and reports success. -/
theorem C2_create_unrecognised_plugin_issues_password_clause :
    (CreateUser (mkData "" "bob" "%" "" "" "sha256_password") ⟨okDB, ⟨[5, 7, 6], "", ""⟩⟩).calls
        = [Call.exec "CREATE USER 'bob'@'%' IDENTIFIED BY ''"]
      ∧ (CreateUser (mkData "" "bob" "%" "" "" "sha256_password") ⟨okDB, ⟨[5, 7, 6], "", ""⟩⟩).err
        = none
      ∧ (CreateUser (mkData "" "bob" "%" "" "" "sha256_password") ⟨okDB, ⟨[5, 7, 6], "", ""⟩⟩).d.Id
        = "bob@%" := by
  decide

/-- C3: with a recognised `auth_plugin`, the one statement `CreateUser` executes
is `CREATE USER '<name>'@'<host>'` followed by the plugin clause: the
`mysql_no_login` clause for `mysql_no_login`, the `AWSAuthenticationPlugin`
clause for `AWSAuthenticationPlugin` on a host other than `localhost`. The
statement is built from name and host alone, so two records that agree on
name, host and plugin execute the same statement whatever their passwords. -/
theorem C3_create_plugin_statement :
    (∀ (d : ResourceData) (meta : providerConfiguration),
      d.Get Key.auth_plugin = "mysql_no_login" →
      (CreateUser d meta).calls
        = [Call.exec ("CREATE USER '" ++ d.Get Key.user ++ "'@'" ++ d.Get Key.host ++ "'"
            ++ " IDENTIFIED WITH mysql_no_login")])
    ∧ (∀ (d : ResourceData) (meta : providerConfiguration),
      d.Get Key.auth_plugin = "AWSAuthenticationPlugin" →
      d.Get Key.host ≠ "localhost" →
      (CreateUser d meta).calls
        = [Call.exec ("CREATE USER '" ++ d.Get Key.user ++ "'@'" ++ d.Get Key.host ++ "'"
            ++ " IDENTIFIED WITH AWSAuthenticationPlugin as 'RDS'")])
    ∧ (∀ (d1 d2 : ResourceData) (m1 m2 : providerConfiguration),
      d1.Get Key.user = d2.Get Key.user →
      d1.Get Key.host = d2.Get Key.host →
      d1.Get Key.auth_plugin = d2.Get Key.auth_plugin →
      (d1.Get Key.auth_plugin = "mysql_no_login"
        ∨ (d1.Get Key.auth_plugin = "AWSAuthenticationPlugin"
            ∧ d1.Get Key.host ≠ "localhost")) →
      (CreateUser d1 m1).calls = (CreateUser d2 m2).calls) := by
  have hno : ∀ (d : ResourceData) (meta : providerConfiguration),
      d.Get Key.auth_plugin = "mysql_no_login" →
      (CreateUser d meta).calls
        = [Call.exec ("CREATE USER '" ++ d.Get Key.user ++ "'@'" ++ d.Get Key.host ++ "'"
            ++ " IDENTIFIED WITH mysql_no_login")] := by
    intro d meta h
    have hl : (0 : Nat) < ("mysql_no_login" : String).length := by decide
    have hne : ("mysql_no_login" : String) ≠ "AWSAuthenticationPlugin" := by decide
    have hc : (" IDENTIFIED WITH mysql_no_login" : String) ≠ "" := by decide
    simp only [CreateUser, auth_of_set, h, hl, hne, hc, false_and, gt_iff_lt, if_true,
      if_false, ne_eq, not_false_eq_true]
    split <;> rfl
  have haws : ∀ (d : ResourceData) (meta : providerConfiguration),
      d.Get Key.auth_plugin = "AWSAuthenticationPlugin" →
      d.Get Key.host ≠ "localhost" →
      (CreateUser d meta).calls
        = [Call.exec ("CREATE USER '" ++ d.Get Key.user ++ "'@'" ++ d.Get Key.host ++ "'"
            ++ " IDENTIFIED WITH AWSAuthenticationPlugin as 'RDS'")] := by
    intro d meta h hh
    have hl : (0 : Nat) < ("AWSAuthenticationPlugin" : String).length := by decide
    have hc : (" IDENTIFIED WITH AWSAuthenticationPlugin as 'RDS'" : String) ≠ "" := by
      decide
    simp only [CreateUser, auth_of_set, h, hl, hh, hc, and_false, gt_iff_lt, if_true,
      if_false, ne_eq, not_false_eq_true]
    split <;> rfl
  refine ⟨hno, haws, ?_⟩
  intro d1 d2 m1 m2 hu hh ha hrec
  rcases hrec with h | ⟨h, hl⟩
  · rw [hno d1 m1 h, hno d2 m2 (ha ▸ h), hu, hh]
  · rw [haws d1 m1 h hl, haws d2 m2 (ha ▸ h) (hh ▸ hl), hu, hh]

theorem C3_create_plugin_statement_witness :
    (CreateUser (mkData "" "bob" "localhost" "pw" "old" "mysql_no_login")
        ⟨okDB, ⟨[5, 7, 6], "", ""⟩⟩).calls
      = [Call.exec "CREATE USER 'bob'@'localhost' IDENTIFIED WITH mysql_no_login"]
    ∧ (CreateUser (mkData "" "bob" "%" "pw" "old" "AWSAuthenticationPlugin")
        ⟨okDB, ⟨[5, 7, 6], "", ""⟩⟩).calls
      = [Call.exec "CREATE USER 'bob'@'%' IDENTIFIED WITH AWSAuthenticationPlugin as 'RDS'"]
    ∧ (CreateUser (mkData "" "bob" "%" "pw" "old" "AWSAuthenticationPlugin")
        ⟨okDB, ⟨[5, 7, 6], "", ""⟩⟩).calls
      = (CreateUser (mkData "" "bob" "%" "" "secret" "AWSAuthenticationPlugin")
        ⟨failDB "denied", ⟨[5, 6, 0], "", ""⟩⟩).calls :=
  ⟨C3_create_plugin_statement.1 _ _ rfl,
    C3_create_plugin_statement.2.1 _ _ rfl (by decide),
    C3_create_plugin_statement.2.2 _ _ _ _ rfl rfl rfl (Or.inr ⟨rfl, by decide⟩)⟩

/-- C4: without an `auth_plugin`, the one statement `CreateUser` executes is
`CREATE USER '<name>'@'<host>' IDENTIFIED BY '<pw>'`, where `<pw>` is
`plaintext_password` when that is non-empty and `password` otherwise. -/
theorem C4_create_password_statement (d : ResourceData) (meta : providerConfiguration)
    (hauth : d.Get Key.auth_plugin = "") :
    (CreateUser d meta).calls
      = [Call.exec ("CREATE USER '" ++ d.Get Key.user ++ "'@'" ++ d.Get Key.host
          ++ "' IDENTIFIED BY '"
          ++ (if d.Get Key.plaintext_password ≠ "" then d.Get Key.plaintext_password
              else d.Get Key.password)
          ++ "'")] := by
  rw [CreateUser_calls d meta (by simp [hauth]), createStatement_password d hauth]

theorem C4_create_password_statement_witness :
    (CreateUser (mkData "" "bob" "%" "pw" "old" "") ⟨okDB, ⟨[5, 7, 6], "", ""⟩⟩).calls
      = [Call.exec "CREATE USER 'bob'@'%' IDENTIFIED BY 'pw'"]
    ∧ (CreateUser (mkData "" "bob" "%" "" "old" "") ⟨okDB, ⟨[5, 7, 6], "", ""⟩⟩).calls
      = [Call.exec "CREATE USER 'bob'@'%' IDENTIFIED BY 'old'"] :=
  ⟨C4_create_password_statement _ _ rfl, C4_create_password_statement _ _ rfl⟩

/-- C5: whenever `CreateUser` succeeds, the identifier it sets is
`name ++ "@" ++ host`; so two successful creations whose records agree on name
and host set the same identifier, whatever the password and plugin attributes
(and whatever the identifier was before). -/
theorem C5_create_identifier :
    (∀ (d : ResourceData) (meta : providerConfiguration),
      (CreateUser d meta).err = none →
      (CreateUser d meta).d.Id = d.Get Key.user ++ "@" ++ d.Get Key.host)
    ∧ (∀ (d1 d2 : ResourceData) (m1 m2 : providerConfiguration),
      (CreateUser d1 m1).err = none →
      (CreateUser d2 m2).err = none →
      d1.Get Key.user = d2.Get Key.user →
      d1.Get Key.host = d2.Get Key.host →
      (CreateUser d1 m1).d.Id = (CreateUser d2 m2).d.Id) := by
  have key : ∀ (d : ResourceData) (meta : providerConfiguration),
      (CreateUser d meta).err = none →
      (CreateUser d meta).d.Id = d.Get Key.user ++ "@" ++ d.Get Key.host := by
    intro d meta h
    by_cases hg : d.Get Key.auth_plugin = "AWSAuthenticationPlugin"
        ∧ d.Get Key.host = "localhost"
    · rw [CreateUser_rejected d meta hg] at h
      simp at h
    · cases hex : meta.DB.Exec (createStatement d) with
      | some e =>
        rw [CreateUser_failed d meta hg e hex] at h
        simp at h
      | none =>
        rw [CreateUser_succeeded d meta hg hex]
        rfl
  refine ⟨key, ?_⟩
  intro d1 d2 m1 m2 h1 h2 hu hh
  rw [key d1 m1 h1, key d2 m2 h2, hu, hh]

theorem C5_create_identifier_witness :
    (CreateUser (mkData "" "bob" "%" "pw" "" "") ⟨okDB, ⟨[5, 7, 6], "", ""⟩⟩).d.Id = "bob@%"
    ∧ (CreateUser (mkData "" "bob" "%" "pw" "" "") ⟨okDB, ⟨[5, 7, 6], "", ""⟩⟩).d.Id
      = (CreateUser (mkData "stale" "bob" "%" "" "other" "mysql_no_login")
          ⟨okDB, ⟨[8, 0, 1], "", ""⟩⟩).d.Id :=
  ⟨C5_create_identifier.1 _ _ (by decide),
    C5_create_identifier.2 _ _ _ _ (by decide) (by decide) rfl rfl⟩

/-! ## Update -/

/-- C6: `UpdateUser` returns success, makes no database call and leaves the
resource data (hence the identifier) unchanged whenever `auth_plugin` is set,
whatever the change flags and the server version, and whenever neither
`plaintext_password` nor `password` has a change. -/
theorem C6_update_noop (d : ResourceData) (meta : providerConfiguration)
    (h : d.Get Key.auth_plugin ≠ ""
      ∨ (d.HasChange Key.plaintext_password = false ∧ d.HasChange Key.password = false)) :
    (UpdateUser d meta).err = none
      ∧ (UpdateUser d meta).calls = []
      ∧ (UpdateUser d meta).d = d
      ∧ (UpdateUser d meta).d.Id = d.Id := by
  unfold UpdateUser
  simp only [auth_of_set]
  by_cases hl : (d.Get Key.auth_plugin).length > 0
  · simp [hl]
  · rcases h with h | ⟨h1, h2⟩
    · exact absurd ((length_pos_iff_ne_empty _).2 h) hl
    · simp [hl, h1, h2]

theorem C6_update_noop_witness :
    ((UpdateUser ⟨"bob@%", fun _ => "old", (mkData "" "bob" "%" "new" "new2" "mysql_no_login").diff,
          fun _ => none⟩ ⟨failDB "down", ⟨[5, 7, 5], "", ""⟩⟩).err = none
      ∧ (UpdateUser ⟨"bob@%", fun _ => "old", (mkData "" "bob" "%" "new" "new2" "mysql_no_login").diff,
          fun _ => none⟩ ⟨failDB "down", ⟨[5, 7, 5], "", ""⟩⟩).calls = []
      ∧ (UpdateUser ⟨"bob@%", fun _ => "old", (mkData "" "bob" "%" "new" "new2" "mysql_no_login").diff,
          fun _ => none⟩ ⟨failDB "down", ⟨[5, 7, 5], "", ""⟩⟩).d
        = ⟨"bob@%", fun _ => "old", (mkData "" "bob" "%" "new" "new2" "mysql_no_login").diff,
          fun _ => none⟩
      ∧ (UpdateUser ⟨"bob@%", fun _ => "old", (mkData "" "bob" "%" "new" "new2" "mysql_no_login").diff,
          fun _ => none⟩ ⟨failDB "down", ⟨[5, 7, 5], "", ""⟩⟩).d.Id = "bob@%")
    ∧ (UpdateUser (mkData "bob@%" "" "" "" "" "") ⟨failDB "down", ⟨[5, 7, 5], "", ""⟩⟩).calls = [] :=
  ⟨C6_update_noop _ _ (Or.inl (by decide)),
    (C6_update_noop _ _ (Or.inr ⟨by decide, by decide⟩)).2.1⟩

theorem set_password_ne_alter_user (x y : String) :
    "SET PASSWORD FOR '" ++ x ≠ "ALTER USER '" ++ y := by
  intro h
  have h1 := congrArg String.data h
  have h2 : ("SET PASSWORD FOR '" : String).data = 'S' :: ("ET PASSWORD FOR '" : String).data :=
    rfl
  have h3 : ("ALTER USER '" : String).data = 'A' :: ("LTER USER '" : String).data := rfl
  rw [String.data_append, String.data_append, h2, h3] at h1
  simp at h1

theorem UpdateUser_changed (d : ResourceData) (meta : providerConfiguration) (pw : String)
    (hauth : d.Get Key.auth_plugin = "")
    (hsel : (if d.HasChange Key.plaintext_password then
        some (d.GetChange Key.plaintext_password).2
      else if d.HasChange Key.password then
        some (d.GetChange Key.password).2
      else none) = some pw) :
    UpdateUser d meta
      = ⟨meta.DB.Exec (passwordStatement d meta pw), d,
          [Call.exec (passwordStatement d meta pw)]⟩ := by
  have hl : ¬ (0 : Nat) < ("" : String).length := by decide
  simp only [UpdateUser, passwordStatement, auth_of_set, hauth, hl, gt_iff_lt, if_false, hsel]
  split <;> simp_all

theorem UpdateUser_dialect (d : ResourceData) (meta : providerConfiguration) (pw : String)
    (hauth : d.Get Key.auth_plugin = "")
    (hchg : d.HasChange Key.plaintext_password = true ∨ d.HasChange Key.password = true)
    (hpw : pw = if d.HasChange Key.plaintext_password then
        (d.GetChange Key.plaintext_password).2 else (d.GetChange Key.password).2) :
    ((UpdateUser d meta).calls
        = [Call.exec ("SET PASSWORD FOR '" ++ d.Get Key.user ++ "'@'" ++ d.Get Key.host
            ++ "' = PASSWORD('" ++ pw ++ "')")]
      ↔ meta.ServerVersion.LessThan ⟨[5, 7, 6], "", ""⟩ = true)
    ∧ ((UpdateUser d meta).calls
        = [Call.exec ("ALTER USER '" ++ d.Get Key.user ++ "'@'" ++ d.Get Key.host
            ++ "' IDENTIFIED BY '" ++ pw ++ "'")]
      ↔ meta.ServerVersion.LessThan ⟨[5, 7, 6], "", ""⟩ = false) := by
  have hsel : (if d.HasChange Key.plaintext_password then
        some (d.GetChange Key.plaintext_password).2
      else if d.HasChange Key.password then
        some (d.GetChange Key.password).2
      else none) = some pw := by
    by_cases h1 : d.HasChange Key.plaintext_password = true
    · simp [h1, hpw]
    · have h2 : d.HasChange Key.password = true := by
        rcases hchg with h | h
        · exact absurd h h1
        · exact h
      simp [h1, h2, hpw]
  rw [UpdateUser_changed d meta pw hauth hsel]
  refine ⟨?_, ?_⟩
  · cases hv : meta.ServerVersion.LessThan ⟨[5, 7, 6], "", ""⟩ with
    | true => simp [passwordStatement, hv]
    | false =>
      simp only [passwordStatement, hv, Bool.false_eq_true, if_false, iff_false]
      intro h
      simp only [List.cons.injEq, Call.exec.injEq, and_true, String.append_assoc] at h
      exact set_password_ne_alter_user _ _ h.symm
  · cases hv : meta.ServerVersion.LessThan ⟨[5, 7, 6], "", ""⟩ with
    | true =>
      simp only [passwordStatement, hv, if_true, Bool.true_eq_false, iff_false]
      intro h
      simp only [List.cons.injEq, Call.exec.injEq, and_true, String.append_assoc] at h
      exact set_password_ne_alter_user _ _ h
    | false => simp [passwordStatement, hv]

theorem lessThan_threshold (a b c : Nat) (pre metadata : String) :
    Version.LessThan ⟨[a, b, c], pre, metadata⟩ ⟨[5, 7, 6], "", ""⟩ = true
      ↔ (a < 5 ∨ (a = 5 ∧ (b < 7 ∨ (b = 7 ∧ c < 6))))
        ∨ (a = 5 ∧ b = 7 ∧ c = 6 ∧ pre ≠ "") := by
  simp only [Version.LessThan, Version.Compare, decide_eq_true_eq]
  by_cases hseg : [a, b, c] = [5, 7, 6]
  · have habc : a = 5 ∧ b = 7 ∧ c = 6 := by simpa using hseg
    obtain ⟨ha, hb, hc⟩ := habc
    subst ha hb hc
    by_cases hp : pre = ""
    · simp [hp]
    · simp [hp]
  · rw [if_neg hseg]
    have hne : ¬ (a = 5 ∧ b = 7 ∧ c = 6) := by simpa using hseg
    simp only [compareSegments]
    constructor
    · intro h
      left
      by_contra hn
      split_ifs at h <;> omega
    · intro h
      rcases h with h | h
      · split_ifs <;> omega
      · exact absurd ⟨h.1, h.2.1, h.2.2.1⟩ hne

/-- C7: on a server whose version is `5.7.6-log` (segments 5, 7, 6 with the
pre-release part `log`), an update of `plaintext_password` makes `UpdateUser`
execute the `SET PASSWORD FOR ... = PASSWORD(...)` statement, because that
version compares as less than `5.7.6`; on the plain versions the boundary is
where the claim puts it: `5.7.5` gets `SET PASSWORD`, `5.7.6` and `8.0.1` get
`ALTER USER ... IDENTIFIED BY ...`. -/
theorem C7_update_dialect_tagged_release :
    Version.LessThan ⟨[5, 7, 6], "log", ""⟩ ⟨[5, 7, 6], "", ""⟩ = true
    ∧ (UpdateUser (mkUpdate "bob@%" "bob" "%" "5e88" "new" "" "")
        ⟨okDB, ⟨[5, 7, 6], "log", ""⟩⟩).calls
      = [Call.exec "SET PASSWORD FOR 'bob'@'%' = PASSWORD('new')"]
    ∧ (UpdateUser (mkUpdate "bob@%" "bob" "%" "5e88" "new" "" "")
        ⟨okDB, ⟨[5, 7, 5], "", ""⟩⟩).calls
      = [Call.exec "SET PASSWORD FOR 'bob'@'%' = PASSWORD('new')"]
    ∧ (UpdateUser (mkUpdate "bob@%" "bob" "%" "5e88" "new" "" "")
        ⟨okDB, ⟨[5, 7, 6], "", ""⟩⟩).calls
      = [Call.exec "ALTER USER 'bob'@'%' IDENTIFIED BY 'new'"]
    ∧ (UpdateUser (mkUpdate "bob@%" "bob" "%" "5e88" "new" "" "")
        ⟨okDB, ⟨[8, 0, 1], "", ""⟩⟩).calls
      = [Call.exec "ALTER USER 'bob'@'%' IDENTIFIED BY 'new'"] := by
  decide

/-- C8: without an `auth_plugin`, if `plaintext_password` has a change then
`UpdateUser` executes exactly one statement, embedding the new value of
`plaintext_password` (also when `password` has a change too); otherwise, if
`password` has a change, exactly one statement embedding the new value of
`password`. The text is `SET PASSWORD FOR '<name>'@'<host>' = PASSWORD('<pw>')`
below server version 5.7.6 and `ALTER USER '<name>'@'<host>' IDENTIFIED BY '<pw>'`
from 5.7.6 on. -/
theorem C8_update_password_statement (d : ResourceData) (meta : providerConfiguration)
    (hauth : d.Get Key.auth_plugin = "") :
    (d.HasChange Key.plaintext_password = true →
      (UpdateUser d meta).calls
        = [Call.exec
            (if meta.ServerVersion.LessThan ⟨[5, 7, 6], "", ""⟩ then
              "SET PASSWORD FOR '" ++ d.Get Key.user ++ "'@'" ++ d.Get Key.host
                ++ "' = PASSWORD('" ++ (d.GetChange Key.plaintext_password).2 ++ "')"
            else
              "ALTER USER '" ++ d.Get Key.user ++ "'@'" ++ d.Get Key.host
                ++ "' IDENTIFIED BY '" ++ (d.GetChange Key.plaintext_password).2 ++ "'")])
    ∧ (d.HasChange Key.plaintext_password = false →
      d.HasChange Key.password = true →
      (UpdateUser d meta).calls
        = [Call.exec
            (if meta.ServerVersion.LessThan ⟨[5, 7, 6], "", ""⟩ then
              "SET PASSWORD FOR '" ++ d.Get Key.user ++ "'@'" ++ d.Get Key.host
                ++ "' = PASSWORD('" ++ (d.GetChange Key.password).2 ++ "')"
            else
              "ALTER USER '" ++ d.Get Key.user ++ "'@'" ++ d.Get Key.host
                ++ "' IDENTIFIED BY '" ++ (d.GetChange Key.password).2 ++ "'")]) := by
  constructor
  · intro h1
    rw [UpdateUser_changed d meta (d.GetChange Key.plaintext_password).2 hauth (by simp [h1])]
    rfl
  · intro h1 h2
    rw [UpdateUser_changed d meta (d.GetChange Key.password).2 hauth (by simp [h1, h2])]
    rfl

theorem C8_update_password_statement_witness :
    (UpdateUser (mkUpdate "bob@%" "bob" "%" "5e88" "new" "old" "other")
        ⟨okDB, ⟨[5, 7, 5], "", ""⟩⟩).calls
      = [Call.exec "SET PASSWORD FOR 'bob'@'%' = PASSWORD('new')"]
    ∧ (UpdateUser (mkUpdate "bob@%" "bob" "%" "" "" "old" "other")
        ⟨failDB "denied", ⟨[5, 7, 20], "", ""⟩⟩).calls
      = [Call.exec "ALTER USER 'bob'@'%' IDENTIFIED BY 'other'"] :=
  ⟨(C8_update_password_statement (mkUpdate "bob@%" "bob" "%" "5e88" "new" "old" "other")
      ⟨okDB, ⟨[5, 7, 5], "", ""⟩⟩ rfl).1 (by decide),
    (C8_update_password_statement (mkUpdate "bob@%" "bob" "%" "" "" "old" "other")
      ⟨failDB "denied", ⟨[5, 7, 20], "", ""⟩⟩ rfl).2 (by decide) (by decide)⟩

/-! ## Read -/

/-- C9: `ReadUser` runs the one query
`SELECT USER FROM mysql.user WHERE USER='<name>'`. If the query returns no row,
the identifier is cleared and no error is returned; if it returns a row, the
resource data (hence the identifier) is left as it was and no error is
returned. -/
theorem C9_read_existence (d : ResourceData) (meta : providerConfiguration) :
    (ReadUser d meta).calls
        = [Call.query ("SELECT USER FROM mysql.user WHERE USER='" ++ d.Get Key.user ++ "'")]
    ∧ (meta.DB.Query ("SELECT USER FROM mysql.user WHERE USER='" ++ d.Get Key.user ++ "'")
          = Except.ok Rows.done →
        (ReadUser d meta).err = none ∧ (ReadUser d meta).d.Id = "")
    ∧ (meta.DB.Query ("SELECT USER FROM mysql.user WHERE USER='" ++ d.Get Key.user ++ "'")
          = Except.ok Rows.row →
        (ReadUser d meta).err = none ∧ (ReadUser d meta).d = d
          ∧ (ReadUser d meta).d.Id = d.Id) := by
  refine ⟨?_, ?_, ?_⟩
  · unfold ReadUser
    simp only
    split <;> rfl
  · intro h
    simp [ReadUser, h, Rows.Next, Rows.Err, ResourceData.SetId, ResourceData.Id]
  · intro h
    simp [ReadUser, h, Rows.Next, Rows.Err]

theorem C9_read_existence_witness :
    ((ReadUser (mkData "bob@%" "bob" "%" "" "" "") ⟨okDB, ⟨[5, 7, 6], "", ""⟩⟩).err = none
      ∧ (ReadUser (mkData "bob@%" "bob" "%" "" "" "") ⟨okDB, ⟨[5, 7, 6], "", ""⟩⟩).d.Id = "")
    ∧ ((ReadUser (mkData "bob@%" "bob" "%" "" "" "") ⟨rowDB, ⟨[5, 7, 6], "", ""⟩⟩).err = none
      ∧ (ReadUser (mkData "bob@%" "bob" "%" "" "" "") ⟨rowDB, ⟨[5, 7, 6], "", ""⟩⟩).d.Id = "bob@%") :=
  ⟨(C9_read_existence (mkData "bob@%" "bob" "%" "" "" "") ⟨okDB, ⟨[5, 7, 6], "", ""⟩⟩).2.1 rfl,
    ((C9_read_existence (mkData "bob@%" "bob" "%" "" "" "") ⟨rowDB, ⟨[5, 7, 6], "", ""⟩⟩).2.2 rfl).1,
    ((C9_read_existence (mkData "bob@%" "bob" "%" "" "" "") ⟨rowDB, ⟨[5, 7, 6], "", ""⟩⟩).2.2 rfl).2.2⟩

/-! ## Delete -/

/-- C10: `DeleteUser` executes exactly the statement
`DROP USER '<name>'@'<host>'`. If the execution succeeds, the identifier becomes
empty and no error is returned; if it fails with `e`, `e` is returned and the
resource data (hence the identifier) keeps its previous value. So the
identifier is cleared exactly when the execution succeeds, given that it was
not empty before. -/
theorem C10_delete (d : ResourceData) (meta : providerConfiguration) :
    (DeleteUser d meta).calls
        = [Call.exec ("DROP USER '" ++ d.Get Key.user ++ "'@'" ++ d.Get Key.host ++ "'")]
    ∧ (meta.DB.Exec ("DROP USER '" ++ d.Get Key.user ++ "'@'" ++ d.Get Key.host ++ "'")
          = none →
        (DeleteUser d meta).err = none ∧ (DeleteUser d meta).d.Id = "")
    ∧ (∀ e : Error,
        meta.DB.Exec ("DROP USER '" ++ d.Get Key.user ++ "'@'" ++ d.Get Key.host ++ "'")
          = some e →
        (DeleteUser d meta).err = some e ∧ (DeleteUser d meta).d = d
          ∧ (DeleteUser d meta).d.Id = d.Id)
    ∧ (d.Id ≠ "" →
        ((DeleteUser d meta).d.Id = ""
          ↔ meta.DB.Exec ("DROP USER '" ++ d.Get Key.user ++ "'@'" ++ d.Get Key.host ++ "'")
            = none)) := by
  refine ⟨?_, ?_, ?_, ?_⟩
  · unfold DeleteUser
    simp only
    split <;> rfl
  · intro h
    simp [DeleteUser, h, ResourceData.SetId, ResourceData.Id]
  · intro e h
    simp [DeleteUser, h]
  · intro hid
    cases h : meta.DB.Exec ("DROP USER '" ++ d.Get Key.user ++ "'@'" ++ d.Get Key.host ++ "'") with
    | none => simp [DeleteUser, h, ResourceData.SetId, ResourceData.Id]
    | some e => simpa [DeleteUser, h] using hid

theorem C10_delete_witness :
    ((DeleteUser (mkData "bob@%" "bob" "%" "" "" "") ⟨okDB, ⟨[5, 7, 6], "", ""⟩⟩).err = none
      ∧ (DeleteUser (mkData "bob@%" "bob" "%" "" "" "") ⟨okDB, ⟨[5, 7, 6], "", ""⟩⟩).d.Id = "")
    ∧ ((DeleteUser (mkData "bob@%" "bob" "%" "" "" "") ⟨failDB "no such user", ⟨[5, 7, 6], "", ""⟩⟩).err
        = some "no such user"
      ∧ (DeleteUser (mkData "bob@%" "bob" "%" "" "" "") ⟨failDB "no such user", ⟨[5, 7, 6], "", ""⟩⟩).d.Id
        = "bob@%")
    ∧ ((DeleteUser (mkData "bob@%" "bob" "%" "" "" "") ⟨okDB, ⟨[5, 7, 6], "", ""⟩⟩).d.Id = ""
        ↔ okDB.Exec "DROP USER 'bob'@'%'" = none) :=
  ⟨(C10_delete (mkData "bob@%" "bob" "%" "" "" "") ⟨okDB, ⟨[5, 7, 6], "", ""⟩⟩).2.1 rfl,
    ⟨((C10_delete (mkData "bob@%" "bob" "%" "" "" "") ⟨failDB "no such user", ⟨[5, 7, 6], "", ""⟩⟩).2.2.1
        "no such user" rfl).1,
      ((C10_delete (mkData "bob@%" "bob" "%" "" "" "") ⟨failDB "no such user", ⟨[5, 7, 6], "", ""⟩⟩).2.2.1
        "no such user" rfl).2.2⟩,
    (C10_delete (mkData "bob@%" "bob" "%" "" "" "") ⟨okDB, ⟨[5, 7, 6], "", ""⟩⟩).2.2.2 (by decide)⟩

/-! ## Failure behaviour of the mutating callbacks -/

theorem UpdateUser_cases (d : ResourceData) (meta : providerConfiguration) :
    UpdateUser d meta = ⟨none, d, []⟩
      ∨ ∃ pw : String, UpdateUser d meta
          = ⟨meta.DB.Exec (passwordStatement d meta pw), d,
              [Call.exec (passwordStatement d meta pw)]⟩ := by
  by_cases hauth : d.Get Key.auth_plugin = ""
  · cases hsel : (if d.HasChange Key.plaintext_password then
          some (d.GetChange Key.plaintext_password).2
        else if d.HasChange Key.password then
          some (d.GetChange Key.password).2
        else none) with
    | none =>
      left
      have hl : ¬ (0 : Nat) < ("" : String).length := by decide
      simp only [UpdateUser, auth_of_set, hauth, hl, gt_iff_lt, if_false, hsel]
    | some pw => exact Or.inr ⟨pw, UpdateUser_changed d meta pw hauth hsel⟩
  · left
    have hl : (d.Get Key.auth_plugin).length > 0 := (length_pos_iff_ne_empty _).2 hauth
    simp only [UpdateUser, auth_of_set, hl, if_true]

theorem DeleteUser_failed (d : ResourceData) (meta : providerConfiguration) (e : Error)
    (hex : meta.DB.Exec ("DROP USER '" ++ d.Get Key.user ++ "'@'" ++ d.Get Key.host ++ "'")
      = some e) :
    DeleteUser d meta
      = ⟨some e, d,
          [Call.exec ("DROP USER '" ++ d.Get Key.user ++ "'@'" ++ d.Get Key.host ++ "'")]⟩ := by
  simp only [DeleteUser, hex]

theorem DeleteUser_succeeded (d : ResourceData) (meta : providerConfiguration)
    (hex : meta.DB.Exec ("DROP USER '" ++ d.Get Key.user ++ "'@'" ++ d.Get Key.host ++ "'")
      = none) :
    DeleteUser d meta
      = ⟨none, d.SetId "",
          [Call.exec ("DROP USER '" ++ d.Get Key.user ++ "'@'" ++ d.Get Key.host ++ "'")]⟩ := by
  simp only [DeleteUser, hex]

/-- C11: when `CreateUser`, `UpdateUser` or `DeleteUser` returns an error, be
it the validation error or an execution error, the identifier after the call
is the identifier before the call. -/
theorem C11_error_keeps_identifier (d : ResourceData) (meta : providerConfiguration) :
    ((CreateUser d meta).err ≠ none → (CreateUser d meta).d.Id = d.Id)
    ∧ ((UpdateUser d meta).err ≠ none → (UpdateUser d meta).d.Id = d.Id)
    ∧ ((DeleteUser d meta).err ≠ none → (DeleteUser d meta).d.Id = d.Id) := by
  refine ⟨?_, ?_, ?_⟩
  · intro h
    by_cases hg : d.Get Key.auth_plugin = "AWSAuthenticationPlugin"
        ∧ d.Get Key.host = "localhost"
    · rw [CreateUser_rejected d meta hg]
    · cases hex : meta.DB.Exec (createStatement d) with
      | some e => rw [CreateUser_failed d meta hg e hex]
      | none =>
        rw [CreateUser_succeeded d meta hg hex] at h
        exact absurd rfl h
  · intro _
    rcases UpdateUser_cases d meta with h | ⟨pw, h⟩ <;> rw [h]
  · intro h
    cases hex : meta.DB.Exec
        ("DROP USER '" ++ d.Get Key.user ++ "'@'" ++ d.Get Key.host ++ "'") with
    | some e => rw [DeleteUser_failed d meta e hex]
    | none =>
      rw [DeleteUser_succeeded d meta hex] at h
      exact absurd rfl h

theorem C11_error_keeps_identifier_witness :
    (CreateUser (mkData "kept" "bob" "%" "pw" "" "") ⟨failDB "denied", ⟨[5, 7, 6], "", ""⟩⟩).d.Id = "kept"
    ∧ (UpdateUser (mkUpdate "bob@%" "bob" "%" "5e88" "new" "" "")
        ⟨failDB "denied", ⟨[5, 7, 6], "", ""⟩⟩).d.Id = "bob@%"
    ∧ (DeleteUser (mkData "bob@%" "bob" "%" "" "" "") ⟨failDB "denied", ⟨[5, 7, 6], "", ""⟩⟩).d.Id
      = "bob@%" :=
  ⟨(C11_error_keeps_identifier (mkData "kept" "bob" "%" "pw" "" "")
      ⟨failDB "denied", ⟨[5, 7, 6], "", ""⟩⟩).1 (by decide),
    (C11_error_keeps_identifier (mkUpdate "bob@%" "bob" "%" "5e88" "new" "" "")
      ⟨failDB "denied", ⟨[5, 7, 6], "", ""⟩⟩).2.1 (by decide),
    (C11_error_keeps_identifier (mkData "bob@%" "bob" "%" "" "" "")
      ⟨failDB "denied", ⟨[5, 7, 6], "", ""⟩⟩).2.2 (by decide)⟩

/-- C12: whenever the statement that `CreateUser`, `UpdateUser` or
`DeleteUser` hands to `Exec` is answered with the error `e`, the callback
returns exactly `e`, and that `Exec` is the only database call it makes. -/
theorem C12_exec_error_returned (d : ResourceData) (meta : providerConfiguration)
    (s : String) (e : Error) (he : meta.DB.Exec s = some e) :
    (Call.exec s ∈ (CreateUser d meta).calls →
      (CreateUser d meta).err = some e ∧ (CreateUser d meta).calls = [Call.exec s])
    ∧ (Call.exec s ∈ (UpdateUser d meta).calls →
      (UpdateUser d meta).err = some e ∧ (UpdateUser d meta).calls = [Call.exec s])
    ∧ (Call.exec s ∈ (DeleteUser d meta).calls →
      (DeleteUser d meta).err = some e ∧ (DeleteUser d meta).calls = [Call.exec s]) := by
  refine ⟨?_, ?_, ?_⟩
  · intro hm
    by_cases hg : d.Get Key.auth_plugin = "AWSAuthenticationPlugin"
        ∧ d.Get Key.host = "localhost"
    · rw [CreateUser_rejected d meta hg] at hm
      simp at hm
    · rw [CreateUser_calls d meta hg] at hm
      have hs : s = createStatement d := by simpa using hm
      subst hs
      rw [CreateUser_failed d meta hg e he]
      exact ⟨rfl, rfl⟩
  · intro hm
    rcases UpdateUser_cases d meta with h | ⟨pw, h⟩
    · rw [h] at hm
      simp at hm
    · rw [h] at hm ⊢
      have hs : s = passwordStatement d meta pw := by simpa using hm
      subst hs
      exact ⟨he, rfl⟩
  · intro hm
    cases hex : meta.DB.Exec
        ("DROP USER '" ++ d.Get Key.user ++ "'@'" ++ d.Get Key.host ++ "'") with
    | some e1 =>
      rw [DeleteUser_failed d meta e1 hex] at hm ⊢
      have hs : s = "DROP USER '" ++ d.Get Key.user ++ "'@'" ++ d.Get Key.host ++ "'" := by
        simpa using hm
      subst hs
      rw [he] at hex
      exact ⟨hex.symm, rfl⟩
    | none =>
      rw [DeleteUser_succeeded d meta hex] at hm
      have hs : s = "DROP USER '" ++ d.Get Key.user ++ "'@'" ++ d.Get Key.host ++ "'" := by
        simpa using hm
      subst hs
      rw [he] at hex
      exact absurd hex (by simp)

theorem C12_exec_error_returned_witness :
    ((CreateUser (mkData "" "bob" "%" "pw" "" "") ⟨failDB "denied", ⟨[5, 7, 6], "", ""⟩⟩).err
        = some "denied"
      ∧ (CreateUser (mkData "" "bob" "%" "pw" "" "") ⟨failDB "denied", ⟨[5, 7, 6], "", ""⟩⟩).calls
        = [Call.exec "CREATE USER 'bob'@'%' IDENTIFIED BY 'pw'"])
    ∧ ((UpdateUser (mkUpdate "bob@%" "bob" "%" "5e88" "new" "" "")
          ⟨failDB "denied", ⟨[5, 7, 6], "", ""⟩⟩).err = some "denied"
      ∧ (UpdateUser (mkUpdate "bob@%" "bob" "%" "5e88" "new" "" "")
          ⟨failDB "denied", ⟨[5, 7, 6], "", ""⟩⟩).calls
        = [Call.exec "ALTER USER 'bob'@'%' IDENTIFIED BY 'new'"])
    ∧ ((DeleteUser (mkData "bob@%" "bob" "%" "" "" "") ⟨failDB "denied", ⟨[5, 7, 6], "", ""⟩⟩).err
        = some "denied"
      ∧ (DeleteUser (mkData "bob@%" "bob" "%" "" "" "") ⟨failDB "denied", ⟨[5, 7, 6], "", ""⟩⟩).calls
        = [Call.exec "DROP USER 'bob'@'%'"]) :=
  ⟨(C12_exec_error_returned (mkData "" "bob" "%" "pw" "" "") ⟨failDB "denied", ⟨[5, 7, 6], "", ""⟩⟩
      "CREATE USER 'bob'@'%' IDENTIFIED BY 'pw'" "denied" rfl).1 (by decide),
    (C12_exec_error_returned (mkUpdate "bob@%" "bob" "%" "5e88" "new" "" "")
      ⟨failDB "denied", ⟨[5, 7, 6], "", ""⟩⟩
      "ALTER USER 'bob'@'%' IDENTIFIED BY 'new'" "denied" rfl).2.1 (by decide),
    (C12_exec_error_returned (mkData "bob@%" "bob" "%" "" "" "") ⟨failDB "denied", ⟨[5, 7, 6], "", ""⟩⟩
      "DROP USER 'bob'@'%'" "denied" rfl).2.2 (by decide)⟩

/-! ## Import and the identifier codec -/

theorem cutAt_eq_none (sep : Char) (l : List Char) : cutAt sep l = none ↔ sep ∉ l := by
  induction l with
  | nil => simp [cutAt]
  | cons c cs ih =>
    by_cases hc : c = sep
    · simp [cutAt, hc]
    · have hc1 : ¬ sep = c := fun h => hc h.symm
      cases hcs : cutAt sep cs with
      | none => simpa [cutAt, hc, hc1, hcs] using ih.1 hcs
      | some ab =>
        have : ¬ sep ∉ cs := fun h => by
          rw [ih.2 h] at hcs
          exact absurd hcs (by simp)
        simpa [cutAt, hc, hc1, hcs] using this

theorem cutAt_append (sep : Char) (a b : List Char) (h : sep ∉ a) :
    cutAt sep (a ++ sep :: b) = some (a, b) := by
  induction a with
  | nil => simp [cutAt]
  | cons c cs ih =>
    have hc : ¬ c = sep := fun hc => h (by simp [hc])
    have hcs : sep ∉ cs := fun hm => h (List.mem_cons_of_mem _ hm)
    simp [cutAt, hc, ih hcs]

theorem cutAt_eq_some (sep : Char) (l a b : List Char) (h : cutAt sep l = some (a, b)) :
    l = a ++ sep :: b ∧ sep ∉ a := by
  induction l generalizing a with
  | nil => simp [cutAt] at h
  | cons c cs ih =>
    by_cases hc : c = sep
    · simp only [cutAt, hc, if_true, Option.some.injEq, Prod.mk.injEq] at h
      rcases h with ⟨h1, h2⟩
      subst h1 h2 hc
      simp
    · cases hcs : cutAt sep cs with
      | none => simp [cutAt, hc, hcs] at h
      | some ab =>
        rcases ab with ⟨a1, b1⟩
        simp only [cutAt, hc, if_false, hcs, Option.some.injEq, Prod.mk.injEq] at h
        rcases h with ⟨h1, h2⟩
        subst h1 h2
        have := ih a1 hcs
        refine ⟨by simp [this.1], ?_⟩
        intro hm
        rcases List.mem_cons.1 hm with hm | hm
        · exact hc hm.symm
        · exact this.2 hm

theorem SplitN_two (s : String) (sep : Char) :
    SplitN s sep 2
      = match cutAt sep s.data with
        | none => [s]
        | some (a, b) => [String.mk a, String.mk b] := by
  simp only [SplitN]

theorem data_at_join (a b : String) : (a ++ "@" ++ b).data = a.data ++ '@' :: b.data := by
  have h : ("@" : String).data = ['@'] := rfl
  simp [String.data_append, h]

theorem ImportUser_failed (d : ResourceData) (meta : providerConfiguration)
    (h : '@' ∉ d.Id.data) :
    ImportUser d meta
      = ⟨[], some ("Error parsing id, unable to import: " ++ d.Id
          ++ ". Must be in format USER@HOST."), d, []⟩ := by
  simp only [ImportUser, SplitN_two, (cutAt_eq_none _ _).2 h]

theorem ImportUser_succeeded (d : ResourceData) (meta : providerConfiguration)
    (a b : List Char) (h : cutAt '@' d.Id.data = some (a, b)) :
    (ImportUser d meta).err = none
      ∧ (ImportUser d meta).result = [(ImportUser d meta).d]
      ∧ (ImportUser d meta).calls = []
      ∧ (ImportUser d meta).d.Id = d.Id
      ∧ (ImportUser d meta).d.Get Key.user = String.mk a
      ∧ (ImportUser d meta).d.Get Key.host = String.mk b := by
  simp only [ImportUser, SplitN_two, h]
  and_intros
  all_goals first
    | trivial
    | rfl
    | (split <;> rfl)

/-- C13: `ImportUser` fails exactly when the identifier contains no `@`; it
then returns the error naming the `USER@HOST` format, returns no resource
data and writes nothing. Otherwise it succeeds, returns the resource data,
and has set `user` to the text before the first `@` and `host` to all the text
after it (which may contain further `@`). -/
theorem C13_import_format (d : ResourceData) (meta : providerConfiguration) :
    ((ImportUser d meta).err ≠ none ↔ '@' ∉ d.Id.data)
    ∧ ('@' ∉ d.Id.data →
      (ImportUser d meta).err
          = some ("Error parsing id, unable to import: " ++ d.Id
              ++ ". Must be in format USER@HOST.")
        ∧ (ImportUser d meta).result = []
        ∧ (ImportUser d meta).d = d)
    ∧ (∀ a b : String, d.Id = a ++ "@" ++ b → '@' ∉ a.data →
      (ImportUser d meta).err = none
        ∧ (ImportUser d meta).result = [(ImportUser d meta).d]
        ∧ (ImportUser d meta).d.Get Key.user = a
        ∧ (ImportUser d meta).d.Get Key.host = b) := by
  refine ⟨?_, ?_, ?_⟩
  · constructor
    · intro herr
      cases hc : cutAt '@' d.Id.data with
      | none => exact (cutAt_eq_none _ _).1 hc
      | some ab =>
        rcases ab with ⟨a, b⟩
        exact absurd (ImportUser_succeeded d meta a b hc).1 herr
    · intro hno
      rw [ImportUser_failed d meta hno]
      simp
  · intro hno
    rw [ImportUser_failed d meta hno]
    exact ⟨rfl, rfl, rfl⟩
  · intro a b hid ha
    have hc : cutAt '@' d.Id.data = some (a.data, b.data) := by
      rw [hid, data_at_join]
      exact cutAt_append _ _ _ ha
    have h := ImportUser_succeeded d meta a.data b.data hc
    exact ⟨h.1, h.2.1, h.2.2.2.2.1, h.2.2.2.2.2⟩

theorem C13_import_format_witness :
    ((ImportUser (mkData "alice@10.0.0.1" "" "" "" "" "") ⟨okDB, ⟨[5, 7, 6], "", ""⟩⟩).err = none
      ∧ (ImportUser (mkData "alice@10.0.0.1" "" "" "" "" "") ⟨okDB, ⟨[5, 7, 6], "", ""⟩⟩).result
        = [(ImportUser (mkData "alice@10.0.0.1" "" "" "" "" "") ⟨okDB, ⟨[5, 7, 6], "", ""⟩⟩).d]
      ∧ (ImportUser (mkData "alice@10.0.0.1" "" "" "" "" "") ⟨okDB, ⟨[5, 7, 6], "", ""⟩⟩).d.Get Key.user
        = "alice"
      ∧ (ImportUser (mkData "alice@10.0.0.1" "" "" "" "" "") ⟨okDB, ⟨[5, 7, 6], "", ""⟩⟩).d.Get Key.host
        = "10.0.0.1")
    ∧ ((ImportUser (mkData "alice" "" "" "" "" "") ⟨okDB, ⟨[5, 7, 6], "", ""⟩⟩).err
        = some "Error parsing id, unable to import: alice. Must be in format USER@HOST."
      ∧ (ImportUser (mkData "alice" "" "" "" "" "") ⟨okDB, ⟨[5, 7, 6], "", ""⟩⟩).result = []
      ∧ (ImportUser (mkData "alice" "" "" "" "" "") ⟨okDB, ⟨[5, 7, 6], "", ""⟩⟩).d
        = mkData "alice" "" "" "" "" "") :=
  ⟨(C13_import_format (mkData "alice@10.0.0.1" "" "" "" "" "") ⟨okDB, ⟨[5, 7, 6], "", ""⟩⟩).2.2
      "alice" "10.0.0.1" (by decide) (by decide),
    (C13_import_format (mkData "alice" "" "" "" "" "") ⟨okDB, ⟨[5, 7, 6], "", ""⟩⟩).2.1 (by decide)⟩

/-- C14: for every non-empty name without `@` and every non-empty host,
splitting `name ++ "@" ++ host`, the identifier `CreateUser` builds, the way
`ImportUser` does gives the two parts `name` and `host`, and `ImportUser` on
resource data with that identifier succeeds and sets `user` to `name` and `host`
to `host`. -/
theorem C14_identity_round_trip (d : ResourceData) (meta : providerConfiguration)
    (name host : String) (_hname : name ≠ "") (hat : '@' ∉ name.data) (_hhost : host ≠ "")
    (hid : d.Id = name ++ "@" ++ host) :
    SplitN (name ++ "@" ++ host) '@' 2 = [name, host]
      ∧ (ImportUser d meta).err = none
      ∧ (ImportUser d meta).d.Get Key.user = name
      ∧ (ImportUser d meta).d.Get Key.host = host := by
  have hc : cutAt '@' (name ++ "@" ++ host).data = some (name.data, host.data) := by
    rw [data_at_join]
    exact cutAt_append _ _ _ hat
  refine ⟨?_, ?_⟩
  · rw [SplitN_two, hc]
  · have h := ImportUser_succeeded d meta name.data host.data (by rw [hid]; exact hc)
    exact ⟨h.1, h.2.2.2.2.1, h.2.2.2.2.2⟩

theorem C14_identity_round_trip_witness :
    SplitN ("bob" ++ "@" ++ "%") '@' 2 = ["bob", "%"]
      ∧ (ImportUser (mkData "bob@%" "" "" "" "" "") ⟨okDB, ⟨[5, 7, 6], "", ""⟩⟩).err = none
      ∧ (ImportUser (mkData "bob@%" "" "" "" "" "") ⟨okDB, ⟨[5, 7, 6], "", ""⟩⟩).d.Get Key.user = "bob"
      ∧ (ImportUser (mkData "bob@%" "" "" "" "" "") ⟨okDB, ⟨[5, 7, 6], "", ""⟩⟩).d.Get Key.host = "%" :=
  C14_identity_round_trip (mkData "bob@%" "" "" "" "" "") ⟨okDB, ⟨[5, 7, 6], "", ""⟩⟩ "bob" "%"
    (by decide) (by decide) (by decide) (by decide)

/-- C15 (as stated, refuted): for the user name `a@b` on host `%`, without
authentication plugin, `CreateUser` succeeds and sets the identifier `a@b@%`;
`ImportUser` on that identifier succeeds and sets `user` to `a` and `host` to
`b@%`, which are not the name and host that were created. -/
theorem C15_create_then_import_counterexample :
    (mkData "" "a@b" "%" "pw" "" "").Get Key.auth_plugin = ""
    ∧ (CreateUser (mkData "" "a@b" "%" "pw" "" "") ⟨okDB, ⟨[5, 7, 6], "", ""⟩⟩).err = none
    ∧ (CreateUser (mkData "" "a@b" "%" "pw" "" "") ⟨okDB, ⟨[5, 7, 6], "", ""⟩⟩).d.Id = "a@b@%"
    ∧ (ImportUser (CreateUser (mkData "" "a@b" "%" "pw" "" "") ⟨okDB, ⟨[5, 7, 6], "", ""⟩⟩).d
        ⟨okDB, ⟨[5, 7, 6], "", ""⟩⟩).err = none
    ∧ (ImportUser (CreateUser (mkData "" "a@b" "%" "pw" "" "") ⟨okDB, ⟨[5, 7, 6], "", ""⟩⟩).d
        ⟨okDB, ⟨[5, 7, 6], "", ""⟩⟩).d.Get Key.user = "a"
    ∧ (ImportUser (CreateUser (mkData "" "a@b" "%" "pw" "" "") ⟨okDB, ⟨[5, 7, 6], "", ""⟩⟩).d
        ⟨okDB, ⟨[5, 7, 6], "", ""⟩⟩).d.Get Key.host = "b@%"
    ∧ (ImportUser (CreateUser (mkData "" "a@b" "%" "pw" "" "") ⟨okDB, ⟨[5, 7, 6], "", ""⟩⟩).d
        ⟨okDB, ⟨[5, 7, 6], "", ""⟩⟩).d.Get Key.user ≠ (mkData "" "a@b" "%" "pw" "" "").Get Key.user := by
  decide

/-- C15 (amended): for every resource data without authentication plugin whose
user name contains no `@` and on which `CreateUser` succeeds, `ImportUser` on
any resource data carrying the identifier that `CreateUser` set succeeds and
sets `user` and `host` to the name and host that were created. -/
theorem C15_create_then_import (d : ResourceData) (meta : providerConfiguration)
    (d0 : ResourceData) (meta0 : providerConfiguration)
    (_hauth : d.Get Key.auth_plugin = "")
    (hat : '@' ∉ (d.Get Key.user).data)
    (hok : (CreateUser d meta).err = none)
    (hid : d0.Id = (CreateUser d meta).d.Id) :
    (ImportUser d0 meta0).err = none
      ∧ (ImportUser d0 meta0).d.Get Key.user = d.Get Key.user
      ∧ (ImportUser d0 meta0).d.Get Key.host = d.Get Key.host := by
  have hcreated : (CreateUser d meta).d.Id = d.Get Key.user ++ "@" ++ d.Get Key.host := by
    by_cases hg : d.Get Key.auth_plugin = "AWSAuthenticationPlugin"
        ∧ d.Get Key.host = "localhost"
    · rw [CreateUser_rejected d meta hg] at hok
      simp at hok
    · cases hex : meta.DB.Exec (createStatement d) with
      | some e =>
        rw [CreateUser_failed d meta hg e hex] at hok
        simp at hok
      | none =>
        rw [CreateUser_succeeded d meta hg hex]
        rfl
  have hc : cutAt '@' d0.Id.data = some ((d.Get Key.user).data, (d.Get Key.host).data) := by
    rw [hid, hcreated, data_at_join]
    exact cutAt_append _ _ _ hat
  have h := ImportUser_succeeded d0 meta0 _ _ hc
  exact ⟨h.1, h.2.2.2.2.1, h.2.2.2.2.2⟩

theorem C15_create_then_import_witness :
    (ImportUser (CreateUser (mkData "" "bob" "10.0.0.1" "pw" "" "") ⟨okDB, ⟨[5, 7, 6], "", ""⟩⟩).d
        ⟨okDB, ⟨[5, 7, 6], "", ""⟩⟩).err = none
      ∧ (ImportUser (CreateUser (mkData "" "bob" "10.0.0.1" "pw" "" "") ⟨okDB, ⟨[5, 7, 6], "", ""⟩⟩).d
        ⟨okDB, ⟨[5, 7, 6], "", ""⟩⟩).d.Get Key.user = "bob"
      ∧ (ImportUser (CreateUser (mkData "" "bob" "10.0.0.1" "pw" "" "") ⟨okDB, ⟨[5, 7, 6], "", ""⟩⟩).d
        ⟨okDB, ⟨[5, 7, 6], "", ""⟩⟩).d.Get Key.host = "10.0.0.1" :=
  C15_create_then_import (mkData "" "bob" "10.0.0.1" "pw" "" "") ⟨okDB, ⟨[5, 7, 6], "", ""⟩⟩
    (CreateUser (mkData "" "bob" "10.0.0.1" "pw" "" "") ⟨okDB, ⟨[5, 7, 6], "", ""⟩⟩).d
    ⟨okDB, ⟨[5, 7, 6], "", ""⟩⟩ rfl (by decide) (by decide) rfl

/-! ## Statement text and the values embedded in it -/

theorem split_unique (sep : Char) (a a1 r r1 : List Char) (ha : sep ∉ a) (ha1 : sep ∉ a1)
    (h : a ++ sep :: r = a1 ++ sep :: r1) : a = a1 ∧ r = r1 := by
  have h1 := cutAt_append sep a r ha
  rw [h, cutAt_append sep a1 r1 ha1] at h1
  simp only [Option.some.injEq, Prod.mk.injEq] at h1
  exact ⟨h1.1.symm, h1.2.symm⟩

theorem create_text_injective (n h p n1 h1 p1 : String)
    (hn : Char.ofNat 39 ∉ n.data) (hh : Char.ofNat 39 ∉ h.data)
    (hn1 : Char.ofNat 39 ∉ n1.data) (hh1 : Char.ofNat 39 ∉ h1.data)
    (heq : "CREATE USER '" ++ n ++ "'@'" ++ h ++ "' IDENTIFIED BY '" ++ p ++ "'"
      = "CREATE USER '" ++ n1 ++ "'@'" ++ h1 ++ "' IDENTIFIED BY '" ++ p1 ++ "'") :
    n = n1 ∧ h = h1 ∧ p = p1 := by
  have e1 : ("'@'" : String).data = Char.ofNat 39 :: '@' :: [Char.ofNat 39] := by decide
  have e2 : ("' IDENTIFIED BY '" : String).data
      = Char.ofNat 39 :: (" IDENTIFIED BY '" : String).data := by decide
  have e3 : ("'" : String).data = [Char.ofNat 39] := by decide
  have hd := congrArg String.data heq
  simp only [String.data_append, List.append_assoc, e1, e2, e3, List.cons_append,
    List.nil_append] at hd
  simp only [List.cons.injEq, true_and] at hd
  obtain ⟨hnn, hr⟩ := split_unique _ _ _ _ _ hn hn1 hd
  simp only [List.cons.injEq, true_and] at hr
  obtain ⟨hhh, hr2⟩ := split_unique _ _ _ _ _ hh hh1 hr
  simp only [List.cons.injEq, true_and] at hr2
  have hpp : p.data = p1.data := List.append_cancel_right hr2
  exact ⟨String.ext hnn, String.ext hhh, String.ext hpp⟩

/-- C16 (as stated, refuted): without authentication plugin, the name `a'@'b`
on host `c` and the name `a` on host `b'@'c`, with the same password, make
`CreateUser` execute the same statement text, although name and host differ. -/
theorem C16_statement_collision_counterexample :
    (mkData "" "a'@'b" "c" "p" "" "").Get Key.auth_plugin = ""
    ∧ (mkData "" "a" "b'@'c" "p" "" "").Get Key.auth_plugin = ""
    ∧ (CreateUser (mkData "" "a'@'b" "c" "p" "" "") ⟨okDB, ⟨[5, 7, 6], "", ""⟩⟩).calls
      = [Call.exec "CREATE USER 'a'@'b'@'c' IDENTIFIED BY 'p'"]
    ∧ (CreateUser (mkData "" "a" "b'@'c" "p" "" "") ⟨okDB, ⟨[5, 7, 6], "", ""⟩⟩).calls
      = [Call.exec "CREATE USER 'a'@'b'@'c' IDENTIFIED BY 'p'"]
    ∧ (mkData "" "a'@'b" "c" "p" "" "").Get Key.user ≠ (mkData "" "a" "b'@'c" "p" "" "").Get Key.user
    ∧ (mkData "" "a'@'b" "c" "p" "" "").Get Key.host
      ≠ (mkData "" "a" "b'@'c" "p" "" "").Get Key.host := by
  decide

/-- C16 (amended): for resource data without authentication plugin whose user
name and host contain no single quote, the statement `CreateUser` executes
determines the name, the host and the password it embeds: two such records that
execute the same statement agree on all three. -/
theorem C16_create_statement_determines_inputs (d1 d2 : ResourceData)
    (m1 m2 : providerConfiguration)
    (ha1 : d1.Get Key.auth_plugin = "") (ha2 : d2.Get Key.auth_plugin = "")
    (hu1 : Char.ofNat 39 ∉ (d1.Get Key.user).data)
    (hh1 : Char.ofNat 39 ∉ (d1.Get Key.host).data)
    (hu2 : Char.ofNat 39 ∉ (d2.Get Key.user).data)
    (hh2 : Char.ofNat 39 ∉ (d2.Get Key.host).data)
    (hcalls : (CreateUser d1 m1).calls = (CreateUser d2 m2).calls) :
    d1.Get Key.user = d2.Get Key.user
      ∧ d1.Get Key.host = d2.Get Key.host
      ∧ (if d1.Get Key.plaintext_password ≠ "" then d1.Get Key.plaintext_password
          else d1.Get Key.password)
        = (if d2.Get Key.plaintext_password ≠ "" then d2.Get Key.plaintext_password
          else d2.Get Key.password) := by
  rw [CreateUser_calls d1 m1 (by simp [ha1]), CreateUser_calls d2 m2 (by simp [ha2]),
    createStatement_password d1 ha1, createStatement_password d2 ha2] at hcalls
  simp only [List.cons.injEq, Call.exec.injEq, and_true] at hcalls
  exact create_text_injective _ _ _ _ _ _ hu1 hh1 hu2 hh2 hcalls

theorem C16_create_statement_determines_inputs_witness :
    (mkData "" "bob" "%" "it's" "" "").Get Key.user = (mkData "x" "bob" "%" "" "it's" "").Get Key.user
      ∧ (mkData "" "bob" "%" "it's" "" "").Get Key.host
        = (mkData "x" "bob" "%" "" "it's" "").Get Key.host
      ∧ (if (mkData "" "bob" "%" "it's" "" "").Get Key.plaintext_password ≠ "" then
            (mkData "" "bob" "%" "it's" "" "").Get Key.plaintext_password
          else (mkData "" "bob" "%" "it's" "" "").Get Key.password)
        = (if (mkData "x" "bob" "%" "" "it's" "").Get Key.plaintext_password ≠ "" then
            (mkData "x" "bob" "%" "" "it's" "").Get Key.plaintext_password
          else (mkData "x" "bob" "%" "" "it's" "").Get Key.password) :=
  C16_create_statement_determines_inputs (mkData "" "bob" "%" "it's" "" "")
    (mkData "x" "bob" "%" "" "it's" "") ⟨okDB, ⟨[5, 7, 6], "", ""⟩⟩ ⟨failDB "denied", ⟨[8, 0, 1], "", ""⟩⟩
    rfl rfl (by decide) (by decide) (by decide) (by decide) (by decide)

/-! ## Database round trips -/

theorem ReadUser_calls (d : ResourceData) (meta : providerConfiguration) :
    (ReadUser d meta).calls
      = [Call.query ("SELECT USER FROM mysql.user WHERE USER='" ++ d.Get Key.user ++ "'")] := by
  unfold ReadUser
  simp only
  split <;> rfl

theorem DeleteUser_calls (d : ResourceData) (meta : providerConfiguration) :
    (DeleteUser d meta).calls
      = [Call.exec ("DROP USER '" ++ d.Get Key.user ++ "'@'" ++ d.Get Key.host ++ "'")] := by
  unfold DeleteUser
  simp only
  split <;> rfl

theorem ImportUser_calls (d : ResourceData) (meta : providerConfiguration) :
    (ImportUser d meta).calls = [] := by
  unfold ImportUser
  simp only
  split <;> rfl

/-- C17: every callback makes at most one database call, whatever the input
and whatever the database answers. `CreateUser` makes no call when the
validation rejects the input and exactly one `Exec` otherwise; `UpdateUser`
makes no call or exactly one `Exec`; `ReadUser` makes exactly one `Query`;
`DeleteUser` makes exactly one `Exec`; `ImportUser` makes none. -/
theorem C17_at_most_one_round_trip (d : ResourceData) (meta : providerConfiguration) :
    ((d.Get Key.auth_plugin = "AWSAuthenticationPlugin" ∧ d.Get Key.host = "localhost") →
        (CreateUser d meta).calls = [])
    ∧ (¬ (d.Get Key.auth_plugin = "AWSAuthenticationPlugin" ∧ d.Get Key.host = "localhost") →
        ∃ s : String, (CreateUser d meta).calls = [Call.exec s])
    ∧ ((UpdateUser d meta).calls = []
        ∨ ∃ s : String, (UpdateUser d meta).calls = [Call.exec s])
    ∧ (∃ s : String, (ReadUser d meta).calls = [Call.query s])
    ∧ (∃ s : String, (DeleteUser d meta).calls = [Call.exec s])
    ∧ (ImportUser d meta).calls = []
    ∧ (CreateUser d meta).calls.length ≤ 1
    ∧ (UpdateUser d meta).calls.length ≤ 1
    ∧ (ReadUser d meta).calls.length ≤ 1
    ∧ (DeleteUser d meta).calls.length ≤ 1
    ∧ (ImportUser d meta).calls.length ≤ 1 := by
  have hc1 : (d.Get Key.auth_plugin = "AWSAuthenticationPlugin"
      ∧ d.Get Key.host = "localhost") → (CreateUser d meta).calls = [] := by
    intro hg
    rw [CreateUser_rejected d meta hg]
  have hu : (UpdateUser d meta).calls = []
      ∨ ∃ s : String, (UpdateUser d meta).calls = [Call.exec s] := by
    rcases UpdateUser_cases d meta with h | ⟨pw, h⟩
    · exact Or.inl (by rw [h])
    · exact Or.inr ⟨_, by rw [h]⟩
  refine ⟨hc1, fun hg => ⟨_, CreateUser_calls d meta hg⟩, hu, ⟨_, ReadUser_calls d meta⟩,
    ⟨_, DeleteUser_calls d meta⟩, ImportUser_calls d meta, ?_, ?_, ?_, ?_, ?_⟩
  · by_cases hg : d.Get Key.auth_plugin = "AWSAuthenticationPlugin"
        ∧ d.Get Key.host = "localhost"
    · simp [hc1 hg]
    · simp [CreateUser_calls d meta hg]
  · rcases hu with h | ⟨s, h⟩ <;> simp [h]
  · simp [ReadUser_calls]
  · simp [DeleteUser_calls]
  · simp [ImportUser_calls]

theorem C17_at_most_one_round_trip_witness :
    (CreateUser (mkData "" "bob" "localhost" "" "" "AWSAuthenticationPlugin")
        ⟨okDB, ⟨[5, 7, 6], "", ""⟩⟩).calls = []
    ∧ (∃ s : String, (CreateUser (mkData "" "bob" "%" "pw" "" "")
        ⟨failDB "denied", ⟨[5, 7, 6], "", ""⟩⟩).calls = [Call.exec s]) :=
  ⟨(C17_at_most_one_round_trip (mkData "" "bob" "localhost" "" "" "AWSAuthenticationPlugin")
      ⟨okDB, ⟨[5, 7, 6], "", ""⟩⟩).1 ⟨rfl, rfl⟩,
    (C17_at_most_one_round_trip (mkData "" "bob" "%" "pw" "" "")
      ⟨failDB "denied", ⟨[5, 7, 6], "", ""⟩⟩).2.1 (by decide)⟩

/-! ## Persisted password representation -/

theorem UpdateUser_data (d : ResourceData) (meta : providerConfiguration) :
    (UpdateUser d meta).d = d := by
  rcases UpdateUser_cases d meta with h | ⟨pw, h⟩ <;> rw [h]

theorem CreateUser_written (d : ResourceData) (meta : providerConfiguration) :
    (CreateUser d meta).d.written = d.written
      ∧ (CreateUser d meta).d.state = d.state
      ∧ (CreateUser d meta).d.diff = d.diff := by
  by_cases hg : d.Get Key.auth_plugin = "AWSAuthenticationPlugin"
      ∧ d.Get Key.host = "localhost"
  · rw [CreateUser_rejected d meta hg]
    exact ⟨rfl, rfl, rfl⟩
  · cases hex : meta.DB.Exec (createStatement d) with
    | some e =>
      rw [CreateUser_failed d meta hg e hex]
      exact ⟨rfl, rfl, rfl⟩
    | none =>
      rw [CreateUser_succeeded d meta hg hex]
      exact ⟨rfl, rfl, rfl⟩

theorem ReadUser_written (d : ResourceData) (meta : providerConfiguration) :
    (ReadUser d meta).d.written = d.written
      ∧ (ReadUser d meta).d.state = d.state
      ∧ (ReadUser d meta).d.diff = d.diff := by
  unfold ReadUser
  simp only
  split
  · exact ⟨rfl, rfl, rfl⟩
  · split <;> exact ⟨rfl, rfl, rfl⟩

theorem DeleteUser_written (d : ResourceData) (meta : providerConfiguration) :
    (DeleteUser d meta).d.written = d.written
      ∧ (DeleteUser d meta).d.state = d.state
      ∧ (DeleteUser d meta).d.diff = d.diff := by
  unfold DeleteUser
  simp only
  split <;> exact ⟨rfl, rfl, rfl⟩

/-- C18 (as stated, refuted): the legacy `password` attribute is declared
without any state transform, so not both password attributes carry the digest
transform. -/
theorem C18_legacy_password_not_digested_counterexample :
    ¬ (∀ k : Key, k = Key.plaintext_password ∨ k = Key.password →
        (resourceUser (fun _ => "digest") k).StateFunc.isSome = true) := by
  intro h
  exact absurd (h Key.password (Or.inr rfl)) (by decide)

/-- C18 (amended): of the two password attributes only `plaintext_password` is
declared with the digest state transform `hashSum`; the deprecated `password`
attribute is declared without a state transform. `CreateUser`, `UpdateUser`,
`ReadUser` and `DeleteUser` store no attribute value in the resource data. -/
theorem C18_password_state_transform (hashSum : String → String) (d : ResourceData)
    (meta : providerConfiguration) :
    (resourceUser hashSum Key.plaintext_password).StateFunc = some hashSum
    ∧ (resourceUser hashSum Key.password).StateFunc = none
    ∧ (resourceUser hashSum Key.password).Deprecated = "Please use plaintext_password instead"
    ∧ (CreateUser d meta).d.written = d.written
    ∧ (UpdateUser d meta).d.written = d.written
    ∧ (ReadUser d meta).d.written = d.written
    ∧ (DeleteUser d meta).d.written = d.written :=
  ⟨rfl, rfl, rfl, (CreateUser_written d meta).1, by rw [UpdateUser_data],
    (ReadUser_written d meta).1, (DeleteUser_written d meta).1⟩

/-! ## Read errors -/

/-- C19: `ReadUser` returns every query error and never reports absence on
an error. If the query itself fails with `e`, or the row iteration ends with
the error `e`, then `e` is returned and the resource data (hence the
identifier) is unchanged; the identifier changes only when the query
succeeded and the iteration ended with no row and no error, and it is then
cleared with no error returned. -/
theorem C19_read_errors_surface (d : ResourceData) (meta : providerConfiguration) :
    (∀ e : Error,
      meta.DB.Query ("SELECT USER FROM mysql.user WHERE USER='" ++ d.Get Key.user ++ "'")
          = Except.error e →
        (ReadUser d meta).err = some e ∧ (ReadUser d meta).d = d)
    ∧ (∀ (rows : Rows) (e : Error),
      meta.DB.Query ("SELECT USER FROM mysql.user WHERE USER='" ++ d.Get Key.user ++ "'")
          = Except.ok rows →
        rows.Err = some e →
        (ReadUser d meta).err = some e ∧ (ReadUser d meta).d = d)
    ∧ ((ReadUser d meta).d.Id ≠ d.Id →
        (∃ rows : Rows,
          meta.DB.Query ("SELECT USER FROM mysql.user WHERE USER='" ++ d.Get Key.user ++ "'")
              = Except.ok rows
            ∧ rows.Next = false ∧ rows.Err = none)
          ∧ (ReadUser d meta).d.Id = ""
          ∧ (ReadUser d meta).err = none) := by
  refine ⟨?_, ?_, ?_⟩
  · intro e h
    simp [ReadUser, h]
  · intro rows e h he
    simp [ReadUser, h, he]
  · intro hne
    cases hq : meta.DB.Query
        ("SELECT USER FROM mysql.user WHERE USER='" ++ d.Get Key.user ++ "'") with
    | error e =>
      simp [ReadUser, hq] at hne
    | ok rows =>
      cases rows with
      | row => simp [ReadUser, hq, Rows.Next, Rows.Err] at hne
      | failed e => simp [ReadUser, hq, Rows.Next, Rows.Err] at hne
      | done =>
        refine ⟨⟨Rows.done, rfl, rfl, rfl⟩, ?_, ?_⟩
        · simp [ReadUser, hq, Rows.Next, Rows.Err, ResourceData.SetId, ResourceData.Id]
        · simp [ReadUser, hq, Rows.Err]

theorem C19_read_errors_surface_witness :
    ((ReadUser (mkData "bob@%" "bob" "%" "" "" "") ⟨failDB "gone away", ⟨[5, 7, 6], "", ""⟩⟩).err
        = some "gone away"
      ∧ (ReadUser (mkData "bob@%" "bob" "%" "" "" "") ⟨failDB "gone away", ⟨[5, 7, 6], "", ""⟩⟩).d
        = mkData "bob@%" "bob" "%" "" "" "")
    ∧ ((ReadUser (mkData "bob@%" "bob" "%" "" "" "")
          ⟨⟨fun _ => none, fun _ => Except.ok (Rows.failed "bad packet")⟩, ⟨[5, 7, 6], "", ""⟩⟩).err
        = some "bad packet"
      ∧ (ReadUser (mkData "bob@%" "bob" "%" "" "" "")
          ⟨⟨fun _ => none, fun _ => Except.ok (Rows.failed "bad packet")⟩, ⟨[5, 7, 6], "", ""⟩⟩).d
        = mkData "bob@%" "bob" "%" "" "" "")
    ∧ ((ReadUser (mkData "bob@%" "bob" "%" "" "" "") ⟨okDB, ⟨[5, 7, 6], "", ""⟩⟩).d.Id = ""
      ∧ (ReadUser (mkData "bob@%" "bob" "%" "" "" "") ⟨okDB, ⟨[5, 7, 6], "", ""⟩⟩).err = none) :=
  ⟨(C19_read_errors_surface (mkData "bob@%" "bob" "%" "" "" "")
      ⟨failDB "gone away", ⟨[5, 7, 6], "", ""⟩⟩).1 "gone away" rfl,
    (C19_read_errors_surface (mkData "bob@%" "bob" "%" "" "" "")
      ⟨⟨fun _ => none, fun _ => Except.ok (Rows.failed "bad packet")⟩, ⟨[5, 7, 6], "", ""⟩⟩).2.1
      (Rows.failed "bad packet") "bad packet" rfl rfl,
    ((C19_read_errors_surface (mkData "bob@%" "bob" "%" "" "" "")
      ⟨okDB, ⟨[5, 7, 6], "", ""⟩⟩).2.2 (by decide)).2⟩

/-! ## The identifier invariant -/

theorem Get_SetId (d : ResourceData) (v : String) (k : Key) : (d.SetId v).Get k = d.Get k :=
  rfl

theorem CreateUser_Get (d : ResourceData) (meta : providerConfiguration) (k : Key) :
    (CreateUser d meta).d.Get k = d.Get k := by
  obtain ⟨h1, _, h3⟩ := CreateUser_written d meta
  simp only [ResourceData.Get, h1, h3]

theorem ReadUser_Get (d : ResourceData) (meta : providerConfiguration) (k : Key) :
    (ReadUser d meta).d.Get k = d.Get k := by
  obtain ⟨h1, _, h3⟩ := ReadUser_written d meta
  simp only [ResourceData.Get, h1, h3]

theorem DeleteUser_Get (d : ResourceData) (meta : providerConfiguration) (k : Key) :
    (DeleteUser d meta).d.Get k = d.Get k := by
  obtain ⟨h1, _, h3⟩ := DeleteUser_written d meta
  simp only [ResourceData.Get, h1, h3]

theorem CreateUser_Id (d : ResourceData) (meta : providerConfiguration) :
    (CreateUser d meta).d.Id = d.Id
      ∨ (CreateUser d meta).d.Id = d.Get Key.user ++ "@" ++ d.Get Key.host := by
  by_cases hg : d.Get Key.auth_plugin = "AWSAuthenticationPlugin"
      ∧ d.Get Key.host = "localhost"
  · rw [CreateUser_rejected d meta hg]
    exact Or.inl rfl
  · cases hex : meta.DB.Exec (createStatement d) with
    | some e =>
      rw [CreateUser_failed d meta hg e hex]
      exact Or.inl rfl
    | none =>
      rw [CreateUser_succeeded d meta hg hex]
      exact Or.inr rfl

theorem ReadUser_Id (d : ResourceData) (meta : providerConfiguration) :
    (ReadUser d meta).d.Id = d.Id ∨ (ReadUser d meta).d.Id = "" := by
  unfold ReadUser
  simp only
  split
  · exact Or.inl rfl
  · split
    · exact Or.inr rfl
    · exact Or.inl rfl

theorem DeleteUser_Id (d : ResourceData) (meta : providerConfiguration) :
    (DeleteUser d meta).d.Id = d.Id ∨ (DeleteUser d meta).d.Id = "" := by
  unfold DeleteUser
  simp only
  split
  · exact Or.inr rfl
  · exact Or.inl rfl

theorem ImportUser_joins (d : ResourceData) (meta : providerConfiguration)
    (h : (ImportUser d meta).err = none) :
    (ImportUser d meta).d.Get Key.user ++ "@" ++ (ImportUser d meta).d.Get Key.host = d.Id := by
  cases hc : cutAt '@' d.Id.data with
  | none =>
    rw [ImportUser_failed d meta ((cutAt_eq_none _ _).1 hc)] at h
    simp at h
  | some ab =>
    rcases ab with ⟨a, b⟩
    have hs := ImportUser_succeeded d meta a b hc
    rw [hs.2.2.2.2.1, hs.2.2.2.2.2]
    apply String.ext
    rw [data_at_join, (cutAt_eq_some _ _ _ _ hc).1]

/-- C20: the identifier invariant. None of `CreateUser`, `UpdateUser`,
`ReadUser`, `DeleteUser` changes the `user` and `host` attributes, and if the
identifier is empty or equal to `user ++ "@" ++ host` before one of them runs,
it is empty or equal to `user ++ "@" ++ host` afterwards, whatever the database
answers. After every successful `ImportUser`, the `user` and `host` it has
set satisfy `user ++ "@" ++ host = id` for the identifier `id` it decoded. -/
theorem C20_identifier_invariant (d : ResourceData) (meta : providerConfiguration) :
    ((d.Id = "" ∨ d.Id = d.Get Key.user ++ "@" ++ d.Get Key.host) →
      ((CreateUser d meta).d.Id = ""
          ∨ (CreateUser d meta).d.Id = d.Get Key.user ++ "@" ++ d.Get Key.host)
        ∧ ((UpdateUser d meta).d.Id = ""
          ∨ (UpdateUser d meta).d.Id = d.Get Key.user ++ "@" ++ d.Get Key.host)
        ∧ ((ReadUser d meta).d.Id = ""
          ∨ (ReadUser d meta).d.Id = d.Get Key.user ++ "@" ++ d.Get Key.host)
        ∧ ((DeleteUser d meta).d.Id = ""
          ∨ (DeleteUser d meta).d.Id = d.Get Key.user ++ "@" ++ d.Get Key.host))
    ∧ (∀ k : Key,
        (CreateUser d meta).d.Get k = d.Get k ∧ (UpdateUser d meta).d.Get k = d.Get k
          ∧ (ReadUser d meta).d.Get k = d.Get k ∧ (DeleteUser d meta).d.Get k = d.Get k)
    ∧ ((ImportUser d meta).err = none →
        (ImportUser d meta).d.Get Key.user ++ "@" ++ (ImportUser d meta).d.Get Key.host
          = d.Id) := by
  refine ⟨?_, ?_, ImportUser_joins d meta⟩
  · intro hinv
    refine ⟨?_, ?_, ?_, ?_⟩
    · rcases CreateUser_Id d meta with h | h
      · rw [h]
        exact hinv
      · exact Or.inr h
    · rw [UpdateUser_data]
      exact hinv
    · rcases ReadUser_Id d meta with h | h
      · rw [h]
        exact hinv
      · exact Or.inl h
    · rcases DeleteUser_Id d meta with h | h
      · rw [h]
        exact hinv
      · exact Or.inl h
  · intro k
    exact ⟨CreateUser_Get d meta k, by rw [UpdateUser_data], ReadUser_Get d meta k,
      DeleteUser_Get d meta k⟩

theorem C20_identifier_invariant_witness :
    (((CreateUser (mkData "" "bob" "%" "pw" "" "") ⟨okDB, ⟨[5, 7, 6], "", ""⟩⟩).d.Id = ""
        ∨ (CreateUser (mkData "" "bob" "%" "pw" "" "") ⟨okDB, ⟨[5, 7, 6], "", ""⟩⟩).d.Id = "bob@%")
      ∧ ((UpdateUser (mkData "" "bob" "%" "pw" "" "") ⟨okDB, ⟨[5, 7, 6], "", ""⟩⟩).d.Id = ""
        ∨ (UpdateUser (mkData "" "bob" "%" "pw" "" "") ⟨okDB, ⟨[5, 7, 6], "", ""⟩⟩).d.Id = "bob@%")
      ∧ ((ReadUser (mkData "" "bob" "%" "pw" "" "") ⟨okDB, ⟨[5, 7, 6], "", ""⟩⟩).d.Id = ""
        ∨ (ReadUser (mkData "" "bob" "%" "pw" "" "") ⟨okDB, ⟨[5, 7, 6], "", ""⟩⟩).d.Id = "bob@%")
      ∧ ((DeleteUser (mkData "" "bob" "%" "pw" "" "") ⟨okDB, ⟨[5, 7, 6], "", ""⟩⟩).d.Id = ""
        ∨ (DeleteUser (mkData "" "bob" "%" "pw" "" "") ⟨okDB, ⟨[5, 7, 6], "", ""⟩⟩).d.Id = "bob@%"))
    ∧ (ImportUser (mkData "a@b@c" "" "" "" "" "") ⟨okDB, ⟨[5, 7, 6], "", ""⟩⟩).d.Get Key.user ++ "@"
        ++ (ImportUser (mkData "a@b@c" "" "" "" "" "") ⟨okDB, ⟨[5, 7, 6], "", ""⟩⟩).d.Get Key.host
      = "a@b@c" :=
  ⟨(C20_identifier_invariant (mkData "" "bob" "%" "pw" "" "") ⟨okDB, ⟨[5, 7, 6], "", ""⟩⟩).1
      (Or.inl rfl),
    (C20_identifier_invariant (mkData "a@b@c" "" "" "" "" "") ⟨okDB, ⟨[5, 7, 6], "", ""⟩⟩).2.2
      (by decide)⟩

end Mysql
